import Mathlib

/-!
# Lifecycle-rule composition (`cmd/ilm/options.go`)

A shallow embedding of the lifecycle-rule composition engine of the `mc`
client: `RemoveILMRule`, `LifecycleOptions.Filter`, `LifecycleOptions.ToILMRule`
and `ApplyRuleFields`.

Conventions of the embedding.

* A Go pointer `*T` is `Option T` (`nil` is `none`).
* A Go slice `[]T` is `Option (List T)`: `none` is the nil slice, `some []` an
  empty non-nil slice.  Where the code only takes `len` and indexes, a plain
  `List` is used and this is said at the definition.
* A Go result `(T, *probe.Error)` is the pair `T × Option probe.Error`; the
  value is kept next to the error because the code does return both.
* `int`, `int64` values are `Int`: the code only copies them, no arithmetic is
  done on them.  The predicate counter is a `Nat`: it is a slice length plus at
  most three.
* In-place mutation through `dest *lifecycle.Rule` is explicit state passing:
  the function returns the rule as it stands when the function returns.
-/

namespace probe

/-- The error type `*probe.Error`, reduced to the message it was built from. -/
abbrev Error := String

end probe

namespace lifecycle

/-- The type `lifecycle.Tag`: a key/value pair. -/
structure Tag where
  Key : String := ""
  Value : String := ""
deriving DecidableEq, Repr

/-- The type `lifecycle.And`: the conjunction part of a filter. -/
structure And where
  Prefix : String := ""
  Tags : Option (List Tag) := none
  ObjectSizeLessThan : Int := 0
  ObjectSizeGreaterThan : Int := 0
deriving DecidableEq, Repr

/-- The type `lifecycle.Filter`. -/
structure Filter where
  And : And := {}
  Prefix : String := ""
  Tag : Tag := {}
  ObjectSizeLessThan : Int := 0
  ObjectSizeGreaterThan : Int := 0
deriving DecidableEq, Repr

/-- The type `lifecycle.ExpirationDate`, a calendar date; the zero value is the
zero `time.Time` (1 January of year 1). -/
structure ExpirationDate where
  year : Nat := 1
  month : Nat := 1
  day : Nat := 1
deriving DecidableEq, Repr

/-- The type `lifecycle.ExpirationDays` (an `int`). -/
abbrev ExpirationDays := Int

/-- The type `lifecycle.Expiration`. -/
structure Expiration where
  Date : ExpirationDate := {}
  Days : ExpirationDays := 0
  DeleteMarker : Bool := false
  DeleteAll : Bool := false
deriving DecidableEq, Repr

/-- The type `lifecycle.Transition`. -/
structure Transition where
  Date : ExpirationDate := {}
  StorageClass : String := ""
  Days : ExpirationDays := 0
deriving DecidableEq, Repr

/-- The type `lifecycle.NoncurrentVersionExpiration`. -/
structure NoncurrentVersionExpiration where
  NoncurrentDays : ExpirationDays := 0
  NewerNoncurrentVersions : Int := 0
deriving DecidableEq, Repr

/-- The type `lifecycle.NoncurrentVersionTransition`. -/
structure NoncurrentVersionTransition where
  StorageClass : String := ""
  NoncurrentDays : ExpirationDays := 0
  NewerNoncurrentVersions : Int := 0
deriving DecidableEq, Repr

/-- The type `lifecycle.Rule`, with the fields `options.go` reads or writes. -/
structure Rule where
  ID : String := ""
  RuleFilter : Filter := {}
  Status : String := ""
  Expiration : Expiration := {}
  Transition : Transition := {}
  NoncurrentVersionExpiration : NoncurrentVersionExpiration := {}
  NoncurrentVersionTransition : NoncurrentVersionTransition := {}
deriving DecidableEq, Repr

/-- The type `lifecycle.Configuration`.  `Rules` is a plain list: the code
takes its length, ranges over it, writes elements and reslices it, and never
compares it with nil. -/
structure Configuration where
  Rules : List Rule := []
deriving DecidableEq, Repr

end lifecycle

namespace ilm

open lifecycle

/-- Length of a Go slice (`len`), 0 for the nil slice. -/
def len {α : Type} (s : Option (List α)) : Nat :=
  match s with
  | none => 0
  | some l => l.length

/-! ## `RemoveILMRule` (options.go 36-58) -/

/-- One iteration of the loop of `RemoveILMRule` at index `i`: the state is the
backing array of `lfcCfg.Rules` and the write cursor `n`.  The element is read
from the live array, as a Go `range` over a slice does. -/
def removeStep (ilmID : String) (st : List Rule × Nat) (i : Nat) : List Rule × Nat :=
  match st.1.get? i with
  | none => st
  | some rule =>
    if rule.ID ≠ ilmID then (st.1.set st.2 rule, st.2 + 1) else st

/-- The whole loop of `RemoveILMRule`: indices `0 .. len-1` in order. -/
def removeLoop (ilmID : String) (rules : List Rule) : List Rule × Nat :=
  (List.range rules.length).foldl (removeStep ilmID) (rules, 0)

/-- The function `RemoveILMRule`: returns the configuration pointer and the
error. -/
def RemoveILMRule (lfcCfg : Option Configuration) (ilmID : String) :
    Option Configuration × Option probe.Error :=
  match lfcCfg with
  | none => (none, some "lifecycle configuration not set")
  | some cfg =>
    if cfg.Rules.length = 0 then
      (some cfg, some "lifecycle configuration not set")
    else
      let st := removeLoop ilmID cfg.Rules
      if st.2 = st.1.length ∧ st.1.length > 0 then
        (some { cfg with Rules := st.1 },
          some ("lifecycle rule for id '" ++ ilmID ++ "' not found"))
      else
        (some { cfg with Rules := st.1.take st.2 }, none)

/-! ## `LifecycleOptions` (options.go 60-83) -/

/-- The type `LifecycleOptions`: `ID` is a plain string, every other field a
pointer. -/
structure LifecycleOptions where
  ID : String := ""
  Status : Option Bool := none
  Prefix : Option String := none
  Tags : Option String := none
  ObjectSizeLessThan : Option Int := none
  ObjectSizeGreaterThan : Option Int := none
  ExpiryDate : Option String := none
  ExpiryDays : Option String := none
  TransitionDate : Option String := none
  TransitionDays : Option String := none
  StorageClass : Option String := none
  ExpiredObjectDeleteMarker : Option Bool := none
  NoncurrentVersionExpirationDays : Option Int := none
  NewerNoncurrentExpirationVersions : Option Int := none
  NoncurrentVersionTransitionDays : Option Int := none
  NewerNoncurrentTransitionVersions : Option Int := none
  NoncurrentVersionTransitionStorageClass : Option String := none
  ExpiredObjectAllversions : Option Bool := none
deriving DecidableEq, Repr

/-- The functions of package `ilm` that `options.go` calls and that are
defined in another file of the package.  Their types are those of the call
sites in `options.go`; the theorems below hold for every choice of them. -/
structure Helpers where
  extractILMTags : String → Option (List Tag)
  parseExpiry : Option String → Option String → Option Bool → Option Bool →
    Expiration × Option probe.Error
  parseTransition : Option String → Option String → Option String →
    Transition × Option probe.Error
  validateILMRule : Rule → Option probe.Error
  parseExpiryDate : String → ExpirationDate × Option probe.Error
  parseExpiryDays : String → ExpirationDays × Option probe.Error
  parseTransitionDate : String → ExpirationDate × Option probe.Error
  parseTransitionDays : String → ExpirationDays × Option probe.Error

/-! ## `LifecycleOptions.Filter` (options.go 85-130) -/

/-- The local `tags` of `Filter`: the extracted tags, nil when `Tags` is unset. -/
def LifecycleOptions.filterTags (h : Helpers) (opts : LifecycleOptions) :
    Option (List Tag) :=
  match opts.Tags with
  | some t => h.extractILMTags t
  | none => none

/-- The local `predCount` of `Filter` when line 111 is reached. -/
def LifecycleOptions.predCount (h : Helpers) (opts : LifecycleOptions) : Nat :=
  (match opts.Tags with
    | some _ => len (opts.filterTags h)
    | none => 0)
  + (if opts.Prefix.isSome then 1 else 0)
  + (if opts.ObjectSizeLessThan.isSome then 1 else 0)
  + (if opts.ObjectSizeGreaterThan.isSome then 1 else 0)

/-- The method `LifecycleOptions.Filter`. -/
def LifecycleOptions.Filter (h : Helpers) (opts : LifecycleOptions) : lifecycle.Filter :=
  let tags := opts.filterTags h
  let pfx : String := match opts.Prefix with
    | some p => p
    | none => ""
  let szLt : Int := match opts.ObjectSizeLessThan with
    | some v => v
    | none => 0
  let szGt : Int := match opts.ObjectSizeGreaterThan with
    | some v => v
    | none => 0
  if opts.predCount h ≥ 2 then
    { And := { Tags := tags, Prefix := pfx, ObjectSizeLessThan := szLt,
               ObjectSizeGreaterThan := szGt } }
  else
    { Prefix := pfx
      ObjectSizeGreaterThan := szGt
      ObjectSizeLessThan := szLt
      Tag := match tags with
        | some (t :: _) => t
        | _ => {} }

/-! ## `LifecycleOptions.ToILMRule` (options.go 132-201) -/

/-- The method `LifecycleOptions.ToILMRule`. -/
def LifecycleOptions.ToILMRule (h : Helpers) (opts : LifecycleOptions) :
    Rule × Option probe.Error :=
  let id := opts.ID
  let status : String :=
    match opts.Status with
    | some b => if !b then "Disabled" else "Enabled"
    | none => "Enabled"
  match h.parseExpiry opts.ExpiryDate opts.ExpiryDays opts.ExpiredObjectDeleteMarker
      opts.ExpiredObjectAllversions with
  | (_, some err) => ({}, some err)
  | (expiry, none) =>
    match h.parseTransition opts.StorageClass opts.TransitionDate opts.TransitionDays with
    | (_, some err) => ({}, some err)
    | (transition, none) =>
      let nonCurrentVersionExpirationDays : ExpirationDays :=
        match opts.NoncurrentVersionExpirationDays with
        | some v => v
        | none => 0
      let newerNonCurrentExpirationVersions : Int :=
        match opts.NewerNoncurrentExpirationVersions with
        | some v => v
        | none => 0
      let nonCurrentVersionTransitionDays : ExpirationDays :=
        match opts.NoncurrentVersionTransitionDays with
        | some v => v
        | none => 0
      let newerNonCurrentTransitionVersions : Int :=
        match opts.NewerNoncurrentTransitionVersions with
        | some v => v
        | none => 0
      let nonCurrentVersionTransitionStorageClass : String :=
        match opts.NoncurrentVersionTransitionStorageClass with
        | some v => v
        | none => ""
      let newRule : Rule :=
        { ID := id
          RuleFilter := opts.Filter h
          Status := status
          Expiration := expiry
          Transition := transition
          NoncurrentVersionExpiration :=
            { NoncurrentDays := nonCurrentVersionExpirationDays
              NewerNoncurrentVersions := newerNonCurrentExpirationVersions }
          NoncurrentVersionTransition :=
            { NoncurrentDays := nonCurrentVersionTransitionDays
              NewerNoncurrentVersions := newerNonCurrentTransitionVersions
              StorageClass := nonCurrentVersionTransitionStorageClass } }
      match h.validateILMRule newRule with
      | some err => ({}, some err)
      | none => (newRule, none)

/-- The local `newRule` of `ToILMRule` (lines 179-194), built from the values
the two parsers returned. -/
def LifecycleOptions.newRule (h : Helpers) (opts : LifecycleOptions) : Rule :=
  { ID := opts.ID
    RuleFilter := opts.Filter h
    Status := match opts.Status with
      | some b => if !b then "Disabled" else "Enabled"
      | none => "Enabled"
    Expiration := (h.parseExpiry opts.ExpiryDate opts.ExpiryDays
      opts.ExpiredObjectDeleteMarker opts.ExpiredObjectAllversions).1
    Transition := (h.parseTransition opts.StorageClass opts.TransitionDate
      opts.TransitionDays).1
    NoncurrentVersionExpiration :=
      { NoncurrentDays := opts.NoncurrentVersionExpirationDays.getD 0
        NewerNoncurrentVersions := opts.NewerNoncurrentExpirationVersions.getD 0 }
    NoncurrentVersionTransition :=
      { NoncurrentDays := opts.NoncurrentVersionTransitionDays.getD 0
        NewerNoncurrentVersions := opts.NewerNoncurrentTransitionVersions.getD 0
        StorageClass := opts.NoncurrentVersionTransitionStorageClass.getD "" } }

/-- The option set with its two expiry trigger fields, `ExpiryDate` and
`ExpiryDays`, unset and every other field as it is. -/
def LifecycleOptions.withoutExpiryTrigger (opts : LifecycleOptions) : LifecycleOptions :=
  { opts with ExpiryDate := none, ExpiryDays := none }

/-! ## `GetLifecycleOptions` (options.go 222-406) -/

/-- The command `*cli.Command` as `GetLifecycleOptions` reads it: which flags
are set, the value of a flag as a string, a boolean or an integer
(`cmd.String`, `cmd.Bool`, `cmd.Int`), and the first positional argument
(`cmd.Args().First()`). -/
structure Command where
  IsSet : String → Bool
  GetString : String → String
  GetBool : String → Bool
  GetInt : String → Int
  FirstArg : String

/-- The functions of other libraries that `GetLifecycleOptions` calls:
`xid.New().String()`, `humanize.ParseBytes` (an unsigned 64-bit value and an
error), `strings.ToUpper` and `strconv.Atoi`.  The theorems below hold for
every choice of them. -/
structure Env where
  NewID : String
  ParseBytes : String → Nat × Option probe.Error
  ToUpper : String → String
  Atoi : String → Int × Option probe.Error

/-- The constant `math.MaxInt64`. -/
def MaxInt64 : Nat := 9223372036854775807

/-- The call `strings.SplitN(s, sep, n)` for a one-character separator and
`n ≥ 0`: at most `n` pieces, the last one the unsplit remainder. -/
def SplitN (sep : Char) : Nat → List Char → List (List Char)
  | 0, _ => []
  | 1, cs => [cs]
  | n + 2, cs =>
    match cs.span (fun c => c ≠ sep) with
    | (a, []) => [a]
    | (a, _ :: rest) => a :: SplitN sep (n + 1) rest

/-- Lines 277-285 and 286-293 of `GetLifecycleOptions`, which differ in the
flag name only: the size flag `f` parsed to a pointer, or the error. -/
def parseSizeFlag (env : Env) (cmd : Command) (f : String) :
    Option Int × Option probe.Error :=
  if cmd.IsSet f then
    let szStr := cmd.GetString f
    match env.ParseBytes szStr with
    | (sz, err) =>
      if err ≠ none ∨ sz > MaxInt64 then
        (none, some (f ++ " value " ++ szStr ++ " is invalid"))
      else
        (some (sz : Int), none)
  else (none, none)

/-- The function `GetLifecycleOptions`. -/
def GetLifecycleOptions (env : Env) (cmd : Command) :
    LifecycleOptions × Option probe.Error :=
  let id : String := if cmd.GetString "id" = "" then env.NewID else cmd.GetString "id"
  let status : Option Bool :=
    if cmd.IsSet "disable" then some (!cmd.GetBool "disable")
    else if cmd.IsSet "enable" then some (cmd.GetBool "enable")
    else none
  let pfx : Option String :=
    if cmd.IsSet "prefix" then some (cmd.GetString "prefix")
    else
      let result := SplitN '/' 3 cmd.FirstArg.toList
      if result.length > 2 then
        match result.getLast? with
        | some p => if p.length > 0 then some (String.mk p) else none
        | none => none
      else none
  match parseSizeFlag env cmd "size-lt" with
  | (_, some err) => ({}, some err)
  | (sizeLt, none) =>
  match parseSizeFlag env cmd "size-gt" with
  | (_, some err) => ({}, some err)
  | (sizeGt, none) =>
  let tier0 : Option String :=
    if cmd.IsSet "storage-class" then some (env.ToUpper (cmd.GetString "storage-class"))
    else none
  let noncurrentTier0 : Option String :=
    if cmd.IsSet "noncurrentversion-transition-storage-class" then
      some (env.ToUpper (cmd.GetString "noncurrentversion-transition-storage-class"))
    else none
  let tier1 : Option String :=
    if cmd.IsSet "tier" then some (env.ToUpper (cmd.GetString "tier")) else tier0
  let tier : Option String :=
    if cmd.IsSet "transition-tier" then some (env.ToUpper (cmd.GetString "transition-tier"))
    else tier1
  let noncurrentTier1 : Option String :=
    if cmd.IsSet "noncurrentversion-tier" then
      some (env.ToUpper (cmd.GetString "noncurrentversion-tier"))
    else noncurrentTier0
  let noncurrentTier : Option String :=
    if cmd.IsSet "noncurrent-transition-tier" then
      some (env.ToUpper (cmd.GetString "noncurrent-transition-tier"))
    else noncurrentTier1
  if tier ≠ none ∧ cmd.IsSet "transition-days" = false
      ∧ cmd.IsSet "transition-date" = false then
    ({}, some "transition-date or transition-days must be set")
  else if noncurrentTier ≠ none ∧ cmd.IsSet "noncurrentversion-transition-days" = false
      ∧ cmd.IsSet "noncurrent-transition-days" = false then
    ({}, some "noncurrentversion-transition-days must be set")
  else
  let tags : Option String :=
    if cmd.IsSet "tags" then some (cmd.GetString "tags") else none
  let count1 : Nat := if cmd.IsSet "expiry-date" then 1 else 0
  let expiryDate : Option String :=
    if cmd.IsSet "expiry-date" then some (cmd.GetString "expiry-date") else none
  let count2 : Nat := if cmd.IsSet "expiry-days" then count1 + 1 else count1
  let expiryDays0 : Option String :=
    if cmd.IsSet "expiry-days" then some (cmd.GetString "expiry-days") else none
  let expiryDays : Option String :=
    if cmd.IsSet "expire-days" then some (cmd.GetString "expire-days") else expiryDays0
  let transitionDate : Option String :=
    if cmd.IsSet "transition-date" then some (cmd.GetString "transition-date") else none
  let transitionDays : Option String :=
    if cmd.IsSet "transition-days" then some (cmd.GetString "transition-days") else none
  let expiredObjectDeleteMarker0 : Option Bool :=
    if cmd.IsSet "expired-object-delete-marker" then
      some (cmd.GetBool "expired-object-delete-marker")
    else none
  let expiryRulesCount : Nat := if cmd.IsSet "expire-delete-marker" then count2 + 1 else count2
  let expiredObjectDeleteMarker : Option Bool :=
    if cmd.IsSet "expire-delete-marker" then some (cmd.GetBool "expire-delete-marker")
    else expiredObjectDeleteMarker0
  let noncurrentVersionExpirationDays0 : Option Int :=
    if cmd.IsSet "noncurrentversion-expiration-days" then
      some (cmd.GetInt "noncurrentversion-expiration-days")
    else none
  match (if cmd.IsSet "noncurrent-expire-days" then
      match env.Atoi (cmd.GetString "noncurrent-expire-days") with
      | (_, some err) =>
        ((none : Option Int), some ("failed to parse noncurrent-expire-days: " ++ err))
      | (ndays, none) => (some ndays, none)
    else (noncurrentVersionExpirationDays0, none)) with
  | (_, some err) => ({}, some err)
  | (noncurrentVersionExpirationDays, none) =>
  let newerNoncurrentExpirationVersions0 : Option Int :=
    if cmd.IsSet "newer-noncurrentversions-expiration" then
      some (cmd.GetInt "newer-noncurrentversions-expiration")
    else none
  let newerNoncurrentExpirationVersions : Option Int :=
    if cmd.IsSet "noncurrent-expire-newer" then some (cmd.GetInt "noncurrent-expire-newer")
    else newerNoncurrentExpirationVersions0
  let noncurrentVersionTransitionDays0 : Option Int :=
    if cmd.IsSet "noncurrentversion-transition-days" then
      some (cmd.GetInt "noncurrentversion-transition-days")
    else none
  let noncurrentVersionTransitionDays : Option Int :=
    if cmd.IsSet "noncurrent-transition-days" then
      some (cmd.GetInt "noncurrent-transition-days")
    else noncurrentVersionTransitionDays0
  let newerNoncurrentTransitionVersions0 : Option Int :=
    if cmd.IsSet "newer-noncurrentversions-transition" then
      some (cmd.GetInt "newer-noncurrentversions-transition")
    else none
  let newerNoncurrentTransitionVersions : Option Int :=
    if cmd.IsSet "noncurrent-transition-newer" then
      some (cmd.GetInt "noncurrent-transition-newer")
    else newerNoncurrentTransitionVersions0
  let expiredObjectAllversions : Option Bool :=
    if cmd.IsSet "expire-all-object-versions" then
      some (cmd.GetBool "expire-all-object-versions")
    else none
  if expiryRulesCount > 1 then
    ({}, some "only one of expiry-date, expiry-days and expire-delete-marker can be used in a single rule. Try adding multiple rules to achieve the desired effect")
  else
    ({ ID := id
       Status := status
       Prefix := pfx
       Tags := tags
       ObjectSizeLessThan := sizeLt
       ObjectSizeGreaterThan := sizeGt
       ExpiryDate := expiryDate
       ExpiryDays := expiryDays
       TransitionDate := transitionDate
       TransitionDays := transitionDays
       StorageClass := tier
       ExpiredObjectDeleteMarker := expiredObjectDeleteMarker
       NoncurrentVersionExpirationDays := noncurrentVersionExpirationDays
       NewerNoncurrentExpirationVersions := newerNoncurrentExpirationVersions
       NoncurrentVersionTransitionDays := noncurrentVersionTransitionDays
       NewerNoncurrentTransitionVersions := newerNoncurrentTransitionVersions
       NoncurrentVersionTransitionStorageClass := noncurrentTier
       ExpiredObjectAllversions := expiredObjectAllversions }, none)

/-! ## `ApplyRuleFields` (options.go 408-505) -/

/-- Lines 410-423 of `ApplyRuleFields`: tags, then prefix. -/
def applyFilterFields (h : Helpers) (dest : Rule) (opts : LifecycleOptions) : Rule :=
  let d1 : Rule :=
    match opts.Tags with
    | some t =>
      { dest with RuleFilter := { dest.RuleFilter with
          And := { dest.RuleFilter.And with Tags := h.extractILMTags t } } }
    | none => dest
  match opts.Prefix with
  | some p =>
    if d1.RuleFilter.And.Tags ≠ none then
      { d1 with RuleFilter := { d1.RuleFilter with
          And := { d1.RuleFilter.And with Prefix := p } } }
    else
      { d1 with RuleFilter := { d1.RuleFilter with Prefix := p } }
  | none => d1

/-- Lines 425-447 of `ApplyRuleFields`: the expiry date / days / delete-marker
chain.  The rule returned with an error is the rule as the chain found it. -/
def applyExpiryFields (h : Helpers) (dest : Rule) (opts : LifecycleOptions) :
    Rule × Option probe.Error :=
  match opts.ExpiryDate with
  | some s =>
    match h.parseExpiryDate s with
    | (_, some err) => (dest, some err)
    | (date, none) =>
      ({ dest with Expiration := { dest.Expiration with
          Date := date, Days := 0, DeleteMarker := false } }, none)
  | none =>
    match opts.ExpiryDays with
    | some s =>
      match h.parseExpiryDays s with
      | (_, some err) => (dest, some err)
      | (days, none) =>
        ({ dest with Expiration := { dest.Expiration with
            Days := days, Date := {} } }, none)
    | none =>
      match opts.ExpiredObjectDeleteMarker with
      | some b =>
        ({ dest with Expiration := { dest.Expiration with
            DeleteMarker := b, Days := 0, Date := {} } }, none)
      | none => (dest, none)

/-- Lines 452-468 of `ApplyRuleFields`: the transition date / days chain. -/
def applyTransitionFields (h : Helpers) (dest : Rule) (opts : LifecycleOptions) :
    Rule × Option probe.Error :=
  match opts.TransitionDate with
  | some s =>
    match h.parseTransitionDate s with
    | (_, some err) => (dest, some err)
    | (date, none) =>
      ({ dest with Transition := { dest.Transition with Date := date, Days := 0 } }, none)
  | none =>
    match opts.TransitionDays with
    | some s =>
      match h.parseTransitionDays s with
      | (_, some err) => (dest, some err)
      | (days, none) =>
        ({ dest with Transition := { dest.Transition with Days := days, Date := {} } }, none)
    | none => (dest, none)

/-- Lines 470-502 of `ApplyRuleFields`: the noncurrent-version fields, the
storage class and the status. -/
def applyTailFields (dest : Rule) (opts : LifecycleOptions) : Rule :=
  let d1 : Rule :=
    match opts.NoncurrentVersionExpirationDays with
    | some v => { dest with NoncurrentVersionExpiration :=
        { dest.NoncurrentVersionExpiration with NoncurrentDays := v } }
    | none => dest
  let d2 : Rule :=
    match opts.NewerNoncurrentExpirationVersions with
    | some v => { d1 with NoncurrentVersionExpiration :=
        { d1.NoncurrentVersionExpiration with NewerNoncurrentVersions := v } }
    | none => d1
  let d3 : Rule :=
    match opts.NoncurrentVersionTransitionDays with
    | some v => { d2 with NoncurrentVersionTransition :=
        { d2.NoncurrentVersionTransition with NoncurrentDays := v } }
    | none => d2
  let d4 : Rule :=
    match opts.NewerNoncurrentTransitionVersions with
    | some v => { d3 with NoncurrentVersionTransition :=
        { d3.NoncurrentVersionTransition with NewerNoncurrentVersions := v } }
    | none => d3
  let d5 : Rule :=
    match opts.NoncurrentVersionTransitionStorageClass with
    | some v => { d4 with NoncurrentVersionTransition :=
        { d4.NoncurrentVersionTransition with StorageClass := v } }
    | none => d4
  let d6 : Rule :=
    match opts.StorageClass with
    | some v => { d5 with Transition := { d5.Transition with StorageClass := v } }
    | none => d5
  match opts.Status with
  | some b => { d6 with Status := if b then "Enabled" else "Disabled" }
  | none => d6

/-- The function `ApplyRuleFields`: the first component is `*dest` when the
function returns, the second the returned error. -/
def ApplyRuleFields (h : Helpers) (dest : Rule) (opts : LifecycleOptions) :
    Rule × Option probe.Error :=
  match applyExpiryFields h (applyFilterFields h dest opts) opts with
  | (d, some err) => (d, some err)
  | (d, none) =>
    let d1 : Rule :=
      match opts.ExpiredObjectAllversions with
      | some b => { d with Expiration := { d.Expiration with DeleteAll := b } }
      | none => d
    match applyTransitionFields h d1 opts with
    | (d2, some err) => (d2, some err)
    | (d2, none) => (applyTailFields d2 opts, none)

/-- Lines 448-450 of `ApplyRuleFields`, the block that `ApplyRuleFields` above
runs between the two chains: the all-versions flag. -/
def applyAllVersionsField (dest : Rule) (opts : LifecycleOptions) : Rule :=
  match opts.ExpiredObjectAllversions with
  | some b => { dest with Expiration := { dest.Expiration with DeleteAll := b } }
  | none => dest

/-! ## Outcome and shape of a filter -/

/-- The noncurrent-transition invariant of the rule validator: a non-empty
noncurrent-version transition storage class implies a non-zero noncurrent-version
transition day count. -/
def noncurrentTransitionInvariant (r : Rule) : Prop :=
  r.NoncurrentVersionTransition.StorageClass ≠ "" →
    r.NoncurrentVersionTransition.NoncurrentDays ≠ 0

instance (r : Rule) : Decidable (noncurrentTransitionInvariant r) := by
  unfold noncurrentTransitionInvariant
  infer_instance


/-- The outcome of a call of `Filter`, seen as a computation that could fail.
The method has the single result `lifecycle.Filter` and `extractILMTags` the
single result `[]lifecycle.Tag`: there is no error result on the path, so the
outcome is the filter. -/
def LifecycleOptions.FilterOutcome (h : Helpers) (opts : LifecycleOptions) :
    Except probe.Error lifecycle.Filter :=
  Except.ok (opts.Filter h)

/-- Number of populated (non-zero) top-level predicates of a filter. -/
def populatedCount (f : lifecycle.Filter) : Nat :=
  (if f.Prefix ≠ "" then 1 else 0) + (if f.Tag ≠ {} then 1 else 0)
  + (if f.ObjectSizeLessThan ≠ 0 then 1 else 0)
  + (if f.ObjectSizeGreaterThan ≠ 0 then 1 else 0)

/-- Number of populated (non-zero) predicates in the `And` part of a filter,
each tag counted individually. -/
def andPredicateCount (a : lifecycle.And) : Nat :=
  len a.Tags + (if a.Prefix ≠ "" then 1 else 0)
  + (if a.ObjectSizeLessThan ≠ 0 then 1 else 0)
  + (if a.ObjectSizeGreaterThan ≠ 0 then 1 else 0)

/-- The Simple/Compound shape invariant of a filter: the `And` part is
populated only when it holds at least two predicates, and then no top-level
`Prefix`, `Tag` or size predicate is populated. -/
def filterShapeInvariant (f : lifecycle.Filter) : Prop :=
  f.And ≠ {} → 2 ≤ andPredicateCount f.And ∧ populatedCount f = 0

instance (f : lifecycle.Filter) : Decidable (filterShapeInvariant f) := by
  unfold filterShapeInvariant
  infer_instance

/-- Splits a character list at every occurrence of `c`. -/
def splitOnChar (c : Char) : List Char → List (List Char)
  | [] => [[]]
  | x :: xs =>
    if x = c then [] :: splitOnChar c xs
    else
      match splitOnChar c xs with
      | [] => [[x]]
      | y :: ys => (x :: y) :: ys

/-- A tag expression is malformed when one of its comma-delimited entries is
not empty and has no `=`. -/
def tagExprMalformed (expr : String) : Bool :=
  (splitOnChar ',' expr.toList).any (fun e => !e.isEmpty && !e.contains '=')

/-! ## The helpers of package `ilm`, modelled from the specification

The helpers are not in `options.go`.  The models below follow the
specification and have the types of the call sites; they serve as a concrete
instance of `Helpers`. -/

/-- Modelled from the spec: the tag of one entry `key=value` (absent
`extractILMTags`).  The key is what stands before the first `=`, the value what
follows it; the call site has no error result, so an entry without `=` gives the
key alone. -/
def entryToTag (e : List Char) : Tag :=
  { Key := String.mk (e.takeWhile (fun c => c ≠ '='))
    Value := String.mk ((e.dropWhile (fun c => c ≠ '=')).drop 1) }

/-- Modelled from the spec: `extractILMTags` is absent from the sources; a tag
expression is a list of comma-delimited `key=value` pairs.  Empty entries are
skipped and an expression without entries gives the nil slice. -/
def extractILMTags (tagLabelVal : String) : Option (List Tag) :=
  match ((splitOnChar ',' tagLabelVal.toList).filter (fun e => !e.isEmpty)).map entryToTag with
  | [] => none
  | ts => some ts

/-- Modelled from the spec: a non-negative decimal integer (used by the absent
`parseExpiryDays` and `parseTransitionDays`). -/
def parseDecimal (cs : List Char) : Option Nat :=
  if cs.isEmpty then none
  else cs.foldl (fun acc c =>
    match acc with
    | some a => if c.isDigit then some (10 * a + (c.toNat - 48)) else none
    | none => none) (some 0)

/-- Modelled from the spec: a date in the fixed `YYYY-MM-DD` format (used by the
absent `parseExpiryDate` and `parseTransitionDate`). -/
def parseDate (cs : List Char) : Option ExpirationDate :=
  match cs with
  | [y1, y2, y3, y4, '-', m1, m2, '-', d1, d2] =>
    match parseDecimal [y1, y2, y3, y4], parseDecimal [m1, m2], parseDecimal [d1, d2] with
    | some y, some m, some d =>
      if 1 ≤ m ∧ m ≤ 12 ∧ 1 ≤ d ∧ d ≤ 31 then some { year := y, month := m, day := d }
      else none
    | _, _, _ => none
  | _ => none

/-- Modelled from the spec: `parseExpiryDate` is absent from the sources; the
date uses the fixed `YYYY-MM-DD` format, anything else is a parse error. -/
def parseExpiryDate (s : String) : ExpirationDate × Option probe.Error :=
  match parseDate s.toList with
  | some d => (d, none)
  | none => ({}, some ("ParseError: expiry date " ++ s))

/-- Modelled from the spec: `parseExpiryDays` is absent from the sources; the
day count is a non-negative integer, anything else is a parse error. -/
def parseExpiryDays (s : String) : ExpirationDays × Option probe.Error :=
  match parseDecimal s.toList with
  | some n => ((n : Int), none)
  | none => (0, some ("ParseError: expiry days " ++ s))

/-- Modelled from the spec: `parseTransitionDate` is absent from the sources;
same format as the expiry date. -/
def parseTransitionDate (s : String) : ExpirationDate × Option probe.Error :=
  match parseDate s.toList with
  | some d => (d, none)
  | none => ({}, some ("ParseError: transition date " ++ s))

/-- Modelled from the spec: `parseTransitionDays` is absent from the sources;
same format as the expiry day count. -/
def parseTransitionDays (s : String) : ExpirationDays × Option probe.Error :=
  match parseDecimal s.toList with
  | some n => ((n : Int), none)
  | none => (0, some ("ParseError: transition days " ++ s))

/-- Modelled from the spec: `parseExpiry` is absent from the sources; a date and
a day count both supplied is a conflict, otherwise the trigger holds the one
supplied and the other is zero; the delete-marker and all-versions flags are
copied when set. -/
def parseExpiry (expiryDate expiryDays : Option String)
    (expiredDeleteMarker expiredObjectAllVersions : Option Bool) :
    Expiration × Option probe.Error :=
  match expiryDate, expiryDays with
  | some _, some _ => ({}, some "ConflictError: expiry date and expiry days are both set")
  | some d, none =>
    match parseExpiryDate d with
    | (_, some err) => ({}, some err)
    | (date, none) =>
      ({ Date := date, DeleteMarker := expiredDeleteMarker.getD false,
         DeleteAll := expiredObjectAllVersions.getD false }, none)
  | none, some n =>
    match parseExpiryDays n with
    | (_, some err) => ({}, some err)
    | (days, none) =>
      ({ Days := days, DeleteMarker := expiredDeleteMarker.getD false,
         DeleteAll := expiredObjectAllVersions.getD false }, none)
  | none, none =>
    ({ DeleteMarker := expiredDeleteMarker.getD false,
       DeleteAll := expiredObjectAllVersions.getD false }, none)

/-- Modelled from the spec: `parseTransition` is absent from the sources; a date
and a day count both supplied is a conflict, a storage class without either
trigger is a conflict, otherwise the trigger holds the one supplied. -/
def parseTransition (storageClass transitionDate transitionDays : Option String) :
    Transition × Option probe.Error :=
  match transitionDate, transitionDays with
  | some _, some _ =>
    ({}, some "ConflictError: transition date and transition days are both set")
  | some d, none =>
    match parseTransitionDate d with
    | (_, some err) => ({}, some err)
    | (date, none) => ({ Date := date, StorageClass := storageClass.getD "" }, none)
  | none, some n =>
    match parseTransitionDays n with
    | (_, some err) => ({}, some err)
    | (days, none) => ({ Days := days, StorageClass := storageClass.getD "" }, none)
  | none, none =>
    match storageClass with
    | some _ => ({}, some "ConflictError: transition-date or transition-days must be set")
    | none => ({}, none)

/-- Modelled from the spec: the filter shape invariant checked by the absent
`validateILMRule`: a populated `And` part holds at least two predicates and then
no top-level predicate is populated; otherwise at most one top-level predicate
is populated. -/
def filterShapeOk (f : lifecycle.Filter) : Bool :=
  if f.And = {} then decide (populatedCount f ≤ 1)
  else
    decide (populatedCount f = 0) &&
    decide (2 ≤ len f.And.Tags + (if f.And.Prefix ≠ "" then 1 else 0)
      + (if f.And.ObjectSizeLessThan ≠ 0 then 1 else 0)
      + (if f.And.ObjectSizeGreaterThan ≠ 0 then 1 else 0))

/-- Modelled from the spec: `validateILMRule` is absent from the sources; the
checks of the rule validator in their order, failing fast. -/
def validateILMRule (rule : Rule) : Option probe.Error :=
  if !filterShapeOk rule.RuleFilter then
    some "ValidationError: filter shape"
  else if 1 < (if rule.Expiration.Date ≠ {} then 1 else 0)
      + (if rule.Expiration.Days ≠ 0 then 1 else 0)
      + (if rule.Expiration.DeleteMarker then 1 else 0) then
    some "ValidationError: more than one expiration trigger"
  else if rule.Transition.Date ≠ {} ∧ rule.Transition.Days ≠ 0 then
    some "ValidationError: more than one transition trigger"
  else if (rule.Transition.Date ≠ {} ∨ rule.Transition.Days ≠ 0)
      ∧ rule.Transition.StorageClass = "" then
    some "ValidationError: transition without storage class"
  else if rule.NoncurrentVersionTransition.StorageClass ≠ ""
      ∧ rule.NoncurrentVersionTransition.NoncurrentDays = 0 then
    some "ValidationError: noncurrent-version transition days must be set"
  else if rule.ID = "" then
    some "ValidationError: rule id is empty"
  else none

/-- The helpers as modelled from the specification. -/
def specHelpers : Helpers :=
  { extractILMTags := extractILMTags
    parseExpiry := parseExpiry
    parseTransition := parseTransition
    validateILMRule := validateILMRule
    parseExpiryDate := parseExpiryDate
    parseExpiryDays := parseExpiryDays
    parseTransitionDate := parseTransitionDate
    parseTransitionDays := parseTransitionDays }

/-! ## Concrete configurations -/

/-- The configuration with the rules `a`, `b`. -/
def cfgTwoRules : Configuration :=
  { Rules := [{ ID := "a" }, { ID := "b" }] }

/-- The configuration with the rules `a`, `b`, `c`, `b`. -/
def cfgFourRules : Configuration :=
  { Rules := [{ ID := "a" }, { ID := "b" }, { ID := "c" }, { ID := "b" }] }

/-! ## Concrete option sets -/

/-- The option set `tags="a=1,b=2", size-gt=1MB`. -/
def optsTagsAndSize : LifecycleOptions :=
  { Tags := some "a=1,b=2", ObjectSizeGreaterThan := some 1048576 }

/-- The option set with the prefix `logs/` alone. -/
def optsPrefixOnly : LifecycleOptions :=
  { Prefix := some "logs/" }

/-- The option set with an explicitly empty prefix and an explicit zero
size-less-than bound. -/
def optsEmptyPrefixZeroSize : LifecycleOptions :=
  { Prefix := some "", ObjectSizeLessThan := some 0 }

/-- The option set whose tag expression is the single entry `a`, without `=`. -/
def optsTagWithoutEq : LifecycleOptions :=
  { Tags := some "a" }

/-- The option set `prefix="logs/", expiry-days="30"` for the rule `r1`,
explicitly disabled. -/
def optsDisabledExpiry : LifecycleOptions :=
  { ID := "r1", Status := some false, Prefix := some "logs/", ExpiryDays := some "30" }

/-- The option set with both an expiry date and an expiry day count. -/
def optsDateAndDays : LifecycleOptions :=
  { ID := "r1", ExpiryDate := some "2030-01-01", ExpiryDays := some "3" }

/-- The option set with a prefix, noncurrent-version expiry after 7 days keeping
2 newer versions, and a noncurrent-version transition after 30 days to `COLD`. -/
def optsNoncurrent : LifecycleOptions :=
  { ID := "r2", Prefix := some "logs/"
    NoncurrentVersionExpirationDays := some 7
    NewerNoncurrentExpirationVersions := some 2
    NoncurrentVersionTransitionDays := some 30
    NoncurrentVersionTransitionStorageClass := some "COLD" }

/-- The option set of the rule `r1` with the expiry date `2030-01-01` alone. -/
def optsExpiryDate2030 : LifecycleOptions :=
  { ID := "r1", ExpiryDate := some "2030-01-01" }

/-- The option set `prefix="logs/", expiry-days="30"` of the rule `r1`. -/
def optsPrefixExpiryDays30 : LifecycleOptions :=
  { ID := "r1", Prefix := some "logs/", ExpiryDays := some "30" }

/-- The option set with the expiry day count `30` alone. -/
def optsExpiryDays30 : LifecycleOptions :=
  { ID := "r1", ExpiryDays := some "30" }

/-- The option set with the delete-marker expiry flag alone, set to true. -/
def optsDeleteMarkerTrue : LifecycleOptions :=
  { ID := "r1", ExpiredObjectDeleteMarker := some true }

/-- The option set with the transition date `2031-06-15` alone. -/
def optsTransitionDate2031 : LifecycleOptions :=
  { ID := "r1", TransitionDate := some "2031-06-15" }

/-- The option set with the transition day count `45` alone. -/
def optsTransitionDays45 : LifecycleOptions :=
  { ID := "r1", TransitionDays := some "45" }

/-- The option set with the tag expression `a=1` alone. -/
def optsTagA1 : LifecycleOptions :=
  { ID := "r1", Tags := some "a=1" }

/-! ## Concrete rules -/

/-- The stored rule `r1` expiring after 10 days; its filter is zero-valued. -/
def ruleExpiryDays10 : Rule :=
  { ID := "r1", Status := "Enabled", Expiration := { Days := 10 } }

/-- The stored rule `r1` with the delete-marker expiry flag set. -/
def ruleDeleteMarker : Rule :=
  { ID := "r1", Status := "Enabled", Expiration := { DeleteMarker := true } }

/-- The stored rule `r1` moving objects to `COLD` after 5 days. -/
def ruleTransitionDays5 : Rule :=
  { ID := "r1", Status := "Enabled", Transition := { Days := 5, StorageClass := "COLD" } }

/-- The stored rule `r1` moving objects to `COLD` on 2029-03-01. -/
def ruleTransitionDate2029 : Rule :=
  { ID := "r1", Status := "Enabled"
    Transition := { Date := { year := 2029, month := 3, day := 1 }, StorageClass := "COLD" } }

/-- The stored rule `r1` whose filter is the simple tag `old=1`. -/
def ruleSimpleTag : Rule :=
  { ID := "r1", Status := "Enabled", RuleFilter := { Tag := { Key := "old", Value := "1" } } }

/-- The stored rule `r1` with a noncurrent-version transition to `COLD` after
30 days. -/
def ruleNoncurrentTransition : Rule :=
  { ID := "r1", Status := "Enabled"
    NoncurrentVersionTransition := { StorageClass := "COLD", NoncurrentDays := 30 } }

/-! ## Concrete option sets for patches -/

/-- The option set with the tag expression `a=1` and the expiry date
`not-a-date`, which is not in the `YYYY-MM-DD` format. -/
def optsTagsBadDate : LifecycleOptions :=
  { ID := "r1", Tags := some "a=1", ExpiryDate := some "not-a-date" }

/-- The option set with size bounds alone: less than 1024, greater than 16. -/
def optsSizeBounds : LifecycleOptions :=
  { ID := "r1", ObjectSizeLessThan := some 1024, ObjectSizeGreaterThan := some 16 }

/-- The option set with the transition date `2031-06-15` and the transition day
count `45` together. -/
def optsTransitionDateAndDays : LifecycleOptions :=
  { ID := "r1", TransitionDate := some "2031-06-15", TransitionDays := some "45" }

/-- The option set with the noncurrent-version transition storage class `COLD`
alone. -/
def optsNoncurrentTierAlone : LifecycleOptions :=
  { ID := "r1", NoncurrentVersionTransitionStorageClass := some "COLD" }

/-- The option set with the noncurrent-version transition day count 0 alone. -/
def optsNoncurrentDaysZero : LifecycleOptions :=
  { ID := "r1", NoncurrentVersionTransitionDays := some 0 }

/-- The option set with the all-versions flag alone, set to true. -/
def optsAllVersions : LifecycleOptions :=
  { ID := "r1", ExpiredObjectAllversions := some true }

/-- An option set that touches every block of `ApplyRuleFields`. -/
def optsManyFields : LifecycleOptions :=
  { ID := "r1", Status := some false, Prefix := some "logs/", Tags := some "a=1,b=2"
    ExpiryDays := some "30", ExpiredObjectAllversions := some true
    TransitionDate := some "2031-06-15", StorageClass := some "COLD"
    NoncurrentVersionExpirationDays := some 7 }

/-! ## Concrete commands -/

/-- An instance of `Env`: a fixed generated identifier, decimal byte counts and
integers, ASCII upper-casing. -/
def envExample : Env :=
  { NewID := "generated-id"
    ParseBytes := fun s =>
      match parseDecimal s.toList with
      | some n => (n, none)
      | none => (0, some "invalid byte count")
    ToUpper := fun s => String.mk (s.toList.map Char.toUpper)
    Atoi := fun s =>
      match parseDecimal s.toList with
      | some n => ((n : Int), none)
      | none => (0, some "invalid syntax") }

/-- The invocation `--id r1 --expiry-date 2030-01-01 --expired-object-delete-marker`
on `myminio/mybucket`. -/
def cmdDateAndDeleteMarker : Command :=
  { IsSet := fun f => f = "id" || f = "expiry-date" || f = "expired-object-delete-marker"
    GetString := fun f => if f = "id" then "r1" else if f = "expiry-date" then "2030-01-01" else ""
    GetBool := fun f => f = "expired-object-delete-marker"
    GetInt := fun _ => 0
    FirstArg := "myminio/mybucket" }

/-- The invocation `--id r1 --expiry-date 2030-01-01 --expire-days 5` on
`myminio/mybucket`. -/
def cmdDateAndExpireDays : Command :=
  { IsSet := fun f => f = "id" || f = "expiry-date" || f = "expire-days"
    GetString := fun f =>
      if f = "id" then "r1" else if f = "expiry-date" then "2030-01-01"
      else if f = "expire-days" then "5" else ""
    GetBool := fun _ => false
    GetInt := fun _ => 0
    FirstArg := "myminio/mybucket" }

/-- The invocation `--id r1 --tier cold` on `myminio/mybucket`, without
`--transition-days` and `--transition-date`. -/
def cmdTierOnly : Command :=
  { IsSet := fun f => f = "id" || f = "tier"
    GetString := fun f => if f = "id" then "r1" else if f = "tier" then "cold" else ""
    GetBool := fun _ => false
    GetInt := fun _ => 0
    FirstArg := "myminio/mybucket" }

/-- The invocation `--id r1 --noncurrentversion-tier cold` on
`myminio/mybucket`, without a noncurrent-version transition day count. -/
def cmdNoncurrentTierOnly : Command :=
  { IsSet := fun f => f = "id" || f = "noncurrentversion-tier"
    GetString := fun f =>
      if f = "id" then "r1" else if f = "noncurrentversion-tier" then "cold" else ""
    GetBool := fun _ => false
    GetInt := fun _ => 0
    FirstArg := "myminio/mybucket" }

/-! ## The loop of `RemoveILMRule` is an in-place filter -/

/-- Writing cell `n` and then taking the first `n + 1` cells gives the first
`n` old cells followed by the written value. -/
theorem take_succ_set_self {α : Type} (l : List α) (n : Nat) (a : α) (h : n < l.length) :
    (l.set n a).take (n + 1) = l.take n ++ [a] := by
  induction l generalizing n with
  | nil => simp at h
  | cons x xs ih =>
    cases n with
    | zero => simp
    | succ m =>
      have hm : m < xs.length := by simpa using h
      simp [ih m hm]

/-- The state of the loop of `RemoveILMRule` after the first `k` indices: the
array keeps its length, its first `n` cells hold the kept rules among the first
`k`, in order, and the cells from `k` on are still the original ones. -/
theorem removeLoop_prefix_inv (ilmID : String) (rules : List Rule) :
    ∀ k, k ≤ rules.length →
      ((List.range k).foldl (removeStep ilmID) (rules, 0)).1.length = rules.length ∧
      ((List.range k).foldl (removeStep ilmID) (rules, 0)).2 ≤ k ∧
      ((List.range k).foldl (removeStep ilmID) (rules, 0)).1.take
          ((List.range k).foldl (removeStep ilmID) (rules, 0)).2
        = (rules.take k).filter (fun r => decide (r.ID ≠ ilmID)) ∧
      ((List.range k).foldl (removeStep ilmID) (rules, 0)).2
        = ((rules.take k).filter (fun r => decide (r.ID ≠ ilmID))).length ∧
      ((List.range k).foldl (removeStep ilmID) (rules, 0)).1.drop k = rules.drop k := by
  intro k
  induction k with
  | zero => intro _; simp
  | succ k ih =>
    intro hk
    have hk1 : k < rules.length := by omega
    obtain ⟨hlen, hn, htake, hcnt, hdrop⟩ := ih (by omega)
    rw [List.range_succ, List.foldl_append]
    generalize (List.range k).foldl (removeStep ilmID) (rules, 0) = st at *
    obtain ⟨arr, n⟩ := st
    simp only at hlen hn htake hcnt hdrop
    have hget : arr[k]? = some rules[k] := by
      have h1 : (arr.drop k)[0]? = (rules.drop k)[0]? := by rw [hdrop]
      rw [List.getElem?_drop, List.getElem?_drop] at h1
      simpa [List.getElem?_eq_getElem hk1] using h1
    have hdrop1 : arr.drop (k + 1) = rules.drop (k + 1) := by
      have := congrArg (List.drop 1) hdrop
      simpa [List.drop_drop, Nat.add_comm] using this
    have htk : rules.take (k + 1) = rules.take k ++ [rules[k]] := by
      rw [List.take_succ, List.getElem?_eq_getElem hk1]; rfl
    simp only [List.foldl_cons, List.foldl_nil, removeStep, List.get?_eq_getElem?, hget]
    by_cases hp : rules[k].ID ≠ ilmID
    · rw [if_pos hp]
      have hnlt : n < arr.length := by omega
      refine ⟨by simp [hlen], by simp; omega, ?_, ?_, ?_⟩
      · simp only
        rw [take_succ_set_self arr n _ hnlt, htake, htk, List.filter_append]
        simp [hp]
      · simp only [hcnt, htk, List.filter_append]
        simp [hp]
      · simp only
        rw [List.drop_set_of_lt _ _ (by omega), hdrop1]
    · rw [if_neg hp]
      refine ⟨hlen, by simp; omega, ?_, ?_, ?_⟩
      · simp only [htake, htk, List.filter_append]
        simp [hp]
      · simp only [hcnt, htk, List.filter_append]
        simp [hp]
      · exact hdrop1

/-- The loop of `RemoveILMRule` over the whole array: the length is kept, the
cursor is the number of kept rules, and the first `n` cells are the kept rules
in their original order. -/
theorem removeLoop_filter (ilmID : String) (rules : List Rule) :
    (removeLoop ilmID rules).1.length = rules.length ∧
    (removeLoop ilmID rules).2 = (rules.filter (fun r => decide (r.ID ≠ ilmID))).length ∧
    (removeLoop ilmID rules).1.take (removeLoop ilmID rules).2
      = rules.filter (fun r => decide (r.ID ≠ ilmID)) := by
  obtain ⟨hlen, _, htake, hcnt, _⟩ :=
    removeLoop_prefix_inv ilmID rules rules.length (Nat.le_refl _)
  rw [List.take_length] at htake hcnt
  exact ⟨hlen, hcnt, htake⟩

/-- The result of `RemoveILMRule` on a configuration with a non-empty rule
list: the not-found error and the configuration as it was when every rule is
kept, the filtered rule list and no error otherwise. -/
theorem RemoveILMRule_of_nonempty (cfg : Configuration) (ilmID : String)
    (hne : cfg.Rules ≠ []) :
    RemoveILMRule (some cfg) ilmID
      = if (cfg.Rules.filter (fun r => decide (r.ID ≠ ilmID))).length = cfg.Rules.length then
          (some cfg, some ("lifecycle rule for id '" ++ ilmID ++ "' not found"))
        else
          (some { cfg with Rules := cfg.Rules.filter (fun r => decide (r.ID ≠ ilmID)) },
           none) := by
  obtain ⟨hlen, hcnt, htake⟩ := removeLoop_filter ilmID cfg.Rules
  have hpos : 0 < cfg.Rules.length := List.length_pos.mpr hne
  unfold RemoveILMRule
  simp only
  rw [if_neg (by omega)]
  by_cases hfl : (cfg.Rules.filter (fun r => decide (r.ID ≠ ilmID))).length = cfg.Rules.length
  · have hall : cfg.Rules.filter (fun r => decide (r.ID ≠ ilmID)) = cfg.Rules :=
      (List.filter_sublist cfg.Rules).eq_of_length hfl
    have harr : (removeLoop ilmID cfg.Rules).1 = cfg.Rules := by
      rw [hcnt, hfl, ← hlen, List.take_length, hall] at htake
      exact htake
    rw [if_pos hfl, if_pos ⟨by rw [hcnt, hlen, hfl], by rw [hlen]; exact hpos⟩, harr]
  · rw [if_neg hfl, if_neg (by rw [hcnt, hlen]; exact fun hc => hfl hc.1), htake]

/-- On a configuration without a rule of ID `ilmID`, `RemoveILMRule` returns an
error and the configuration as it was. -/
theorem RemoveILMRule_of_absent (cfg : Configuration) (ilmID : String)
    (hall : ∀ r ∈ cfg.Rules, r.ID ≠ ilmID) :
    (RemoveILMRule (some cfg) ilmID).2 ≠ none ∧
    (RemoveILMRule (some cfg) ilmID).1 = some cfg := by
  by_cases hne : cfg.Rules = []
  · unfold RemoveILMRule
    simp only
    rw [if_pos (by rw [hne]; rfl)]
    exact ⟨by simp, rfl⟩
  · rw [RemoveILMRule_of_nonempty cfg ilmID hne,
      if_pos (List.filter_length_eq_length.mpr (fun r hr => by simpa using hall r hr))]
    exact ⟨by simp, rfl⟩

/-! ## Claims about `RemoveILMRule` -/

/-- C2: on a configuration with a non-empty rule list in which no rule has ID
`ilmID`, `RemoveILMRule` returns the rule-not-found error and the configuration
with its rule list unchanged. -/
theorem RemoveILMRule_missing_id (cfg : Configuration) (ilmID : String)
    (hne : cfg.Rules ≠ []) (hno : ∀ r ∈ cfg.Rules, r.ID ≠ ilmID) :
    RemoveILMRule (some cfg) ilmID
      = (some cfg, some ("lifecycle rule for id '" ++ ilmID ++ "' not found")) := by
  obtain ⟨hlen, hcnt, htake⟩ := removeLoop_filter ilmID cfg.Rules
  have hall : cfg.Rules.filter (fun r => decide (r.ID ≠ ilmID)) = cfg.Rules :=
    List.filter_eq_self.mpr (fun r hr => by simpa using hno r hr)
  rw [hall] at hcnt htake
  have hpos : 0 < cfg.Rules.length := List.length_pos.mpr hne
  have harr : (removeLoop ilmID cfg.Rules).1 = cfg.Rules := by
    rw [hcnt, ← hlen, List.take_length] at htake
    exact htake
  unfold RemoveILMRule
  simp only
  rw [if_neg (by omega), if_pos ⟨by rw [hcnt, hlen], by rw [hlen]; exact hpos⟩, harr]

/-- Witness of C2: removing "missing" from the rules "a", "b". -/
theorem RemoveILMRule_missing_id_witness :
    (cfgTwoRules.Rules ≠ [] ∧ ∀ r ∈ cfgTwoRules.Rules, r.ID ≠ "missing") ∧
    RemoveILMRule (some cfgTwoRules) "missing"
      = (some { Rules := [{ ID := "a" }, { ID := "b" }] },
         some "lifecycle rule for id 'missing' not found") :=
  ⟨⟨by decide, by decide⟩,
   RemoveILMRule_missing_id cfgTwoRules "missing" (by decide) (by decide)⟩

/-- C3: on a configuration in which some rule has ID `ilmID`, `RemoveILMRule`
returns no error and the rule list is the original one without the rules whose
ID is `ilmID`, the others in their original order. -/
theorem RemoveILMRule_removes (cfg : Configuration) (ilmID : String)
    (hex : ∃ r ∈ cfg.Rules, r.ID = ilmID) :
    RemoveILMRule (some cfg) ilmID
      = (some { cfg with Rules := cfg.Rules.filter (fun r => decide (r.ID ≠ ilmID)) },
         none) := by
  obtain ⟨hlen, hcnt, htake⟩ := removeLoop_filter ilmID cfg.Rules
  have hlt : (cfg.Rules.filter (fun r => decide (r.ID ≠ ilmID))).length < cfg.Rules.length := by
    apply List.length_filter_lt_length_iff_exists.mpr
    obtain ⟨r, hr, hid⟩ := hex
    exact ⟨r, hr, by simp [hid]⟩
  have hpos : cfg.Rules.length ≠ 0 := by omega
  unfold RemoveILMRule
  simp only
  rw [if_neg hpos, if_neg (by rw [hcnt, hlen]; omega), htake]

/-- Witness of C3: removing "b" from the rules "a", "b", "c", "b". -/
theorem RemoveILMRule_removes_witness :
    (∃ r ∈ cfgFourRules.Rules, r.ID = "b") ∧
    RemoveILMRule (some cfgFourRules) "b"
      = (some { Rules := [{ ID := "a" }, { ID := "c" }] }, none) :=
  ⟨⟨{ ID := "b" }, by decide, rfl⟩,
   RemoveILMRule_removes cfgFourRules "b" ⟨{ ID := "b" }, by decide, rfl⟩⟩

/-! ## Claims about `LifecycleOptions.Filter` -/

/-- The counter `predCount` of `Filter` is the number of extracted tags plus one
for each of prefix, size-less-than and size-greater-than that is set. -/
theorem predCount_eq (h : Helpers) (opts : LifecycleOptions) :
    opts.predCount h
      = len (opts.filterTags h) + (if opts.Prefix.isSome then 1 else 0)
        + (if opts.ObjectSizeLessThan.isSome then 1 else 0)
        + (if opts.ObjectSizeGreaterThan.isSome then 1 else 0) := by
  unfold LifecycleOptions.predCount LifecycleOptions.filterTags
  cases opts.Tags <;> rfl

/-- The filter built by `Filter` when the counter is at least 2. -/
theorem Filter_of_two_le (h : Helpers) (opts : LifecycleOptions)
    (hn : 2 ≤ opts.predCount h) :
    opts.Filter h
      = { And := { Tags := opts.filterTags h
                   Prefix := opts.Prefix.getD ""
                   ObjectSizeLessThan := opts.ObjectSizeLessThan.getD 0
                   ObjectSizeGreaterThan := opts.ObjectSizeGreaterThan.getD 0 } } := by
  unfold LifecycleOptions.Filter
  simp only [ge_iff_le, hn, if_true]
  cases opts.Prefix <;> cases opts.ObjectSizeLessThan <;>
    cases opts.ObjectSizeGreaterThan <;> rfl

/-- The filter built by `Filter` when the counter is below 2. -/
theorem Filter_of_lt_two (h : Helpers) (opts : LifecycleOptions)
    (hn : opts.predCount h < 2) :
    opts.Filter h
      = { Prefix := opts.Prefix.getD ""
          ObjectSizeLessThan := opts.ObjectSizeLessThan.getD 0
          ObjectSizeGreaterThan := opts.ObjectSizeGreaterThan.getD 0
          Tag := match opts.filterTags h with
            | some (t :: _) => t
            | _ => {} } := by
  unfold LifecycleOptions.Filter
  have hn2 : ¬ (2 ≤ opts.predCount h) := by omega
  simp only [ge_iff_le, hn2, if_false]
  cases opts.Prefix <;> cases opts.ObjectSizeLessThan <;>
    cases opts.ObjectSizeGreaterThan <;> rfl

/-- C4: when the number of set predicates (each extracted tag, the prefix, each
size bound) is at least 2, `Filter` returns a filter whose `And` part holds all
the extracted tags, the prefix and the two size bounds (zero when unset) and
whose top-level `Prefix`, `Tag` and size bounds are zero-valued. -/
theorem Filter_compound (h : Helpers) (opts : LifecycleOptions)
    (hn : 2 ≤ len (opts.filterTags h) + (if opts.Prefix.isSome then 1 else 0)
        + (if opts.ObjectSizeLessThan.isSome then 1 else 0)
        + (if opts.ObjectSizeGreaterThan.isSome then 1 else 0)) :
    (opts.Filter h).And.Tags = opts.filterTags h ∧
    (opts.Filter h).And.Prefix = opts.Prefix.getD "" ∧
    (opts.Filter h).And.ObjectSizeLessThan = opts.ObjectSizeLessThan.getD 0 ∧
    (opts.Filter h).And.ObjectSizeGreaterThan = opts.ObjectSizeGreaterThan.getD 0 ∧
    (opts.Filter h).Prefix = "" ∧
    (opts.Filter h).Tag = {} ∧
    (opts.Filter h).ObjectSizeLessThan = 0 ∧
    (opts.Filter h).ObjectSizeGreaterThan = 0 := by
  rw [← predCount_eq] at hn
  rw [Filter_of_two_le h opts hn]
  exact ⟨rfl, rfl, rfl, rfl, rfl, rfl, rfl, rfl⟩

/-- Witness of C4: the tags `a=1,b=2` with a size-greater-than bound of 1 MiB. -/
theorem Filter_compound_witness :
    (2 ≤ len (optsTagsAndSize.filterTags specHelpers)
        + (if optsTagsAndSize.Prefix.isSome then 1 else 0)
        + (if optsTagsAndSize.ObjectSizeLessThan.isSome then 1 else 0)
        + (if optsTagsAndSize.ObjectSizeGreaterThan.isSome then 1 else 0)) ∧
    ((optsTagsAndSize.Filter specHelpers).And.Tags
        = some [{ Key := "a", Value := "1" }, { Key := "b", Value := "2" }] ∧
      (optsTagsAndSize.Filter specHelpers).And.Prefix = "" ∧
      (optsTagsAndSize.Filter specHelpers).And.ObjectSizeLessThan = 0 ∧
      (optsTagsAndSize.Filter specHelpers).And.ObjectSizeGreaterThan = 1048576 ∧
      (optsTagsAndSize.Filter specHelpers).Prefix = "" ∧
      (optsTagsAndSize.Filter specHelpers).Tag = {} ∧
      (optsTagsAndSize.Filter specHelpers).ObjectSizeLessThan = 0 ∧
      (optsTagsAndSize.Filter specHelpers).ObjectSizeGreaterThan = 0) :=
  ⟨by decide, Filter_compound specHelpers optsTagsAndSize (by decide)⟩

/-- C5: when the number of set predicates is at most 1, `Filter` returns a
filter whose `And` part is zero-valued, with at most one populated top-level
field, and that field carries the set predicate; with no predicate set the
filter is the zero-valued filter. -/
theorem Filter_simple (h : Helpers) (opts : LifecycleOptions)
    (hn : len (opts.filterTags h) + (if opts.Prefix.isSome then 1 else 0)
        + (if opts.ObjectSizeLessThan.isSome then 1 else 0)
        + (if opts.ObjectSizeGreaterThan.isSome then 1 else 0) ≤ 1) :
    (opts.Filter h).And = {} ∧
    populatedCount (opts.Filter h) ≤ 1 ∧
    (∀ p, opts.Prefix = some p → (opts.Filter h).Prefix = p) ∧
    (∀ t, opts.filterTags h = some [t] → (opts.Filter h).Tag = t) ∧
    (∀ v, opts.ObjectSizeLessThan = some v → (opts.Filter h).ObjectSizeLessThan = v) ∧
    (∀ v, opts.ObjectSizeGreaterThan = some v →
      (opts.Filter h).ObjectSizeGreaterThan = v) ∧
    (len (opts.filterTags h) + (if opts.Prefix.isSome then 1 else 0)
        + (if opts.ObjectSizeLessThan.isSome then 1 else 0)
        + (if opts.ObjectSizeGreaterThan.isSome then 1 else 0) = 0 →
      opts.Filter h = {}) := by
  have hlt : opts.predCount h < 2 := by rw [predCount_eq]; omega
  rw [Filter_of_lt_two h opts hlt]
  refine ⟨rfl, ?_, ?_, ?_, ?_, ?_, ?_⟩
  · cases hP : opts.Prefix <;> cases hL : opts.ObjectSizeLessThan <;>
      cases hG : opts.ObjectSizeGreaterThan <;>
      rcases hT : opts.filterTags h with _ | _ | ⟨t, _ | ⟨t2, ts⟩⟩ <;>
      simp [hP, hL, hG, hT, len, populatedCount] at hn ⊢ <;>
      (try split) <;> omega
  · intro p hp; simp [hp]
  · intro t ht; simp [ht]
  · intro v hv; simp [hv]
  · intro v hv; simp [hv]
  · intro h0
    cases hP : opts.Prefix <;> cases hL : opts.ObjectSizeLessThan <;>
      cases hG : opts.ObjectSizeGreaterThan <;>
      rcases hT : opts.filterTags h with _ | _ | ⟨t, ts⟩ <;>
      simp [hP, hL, hG, hT, len] at h0 ⊢

/-- Witness of C5: the prefix `logs/` alone gives the simple prefix filter. -/
theorem Filter_simple_witness :
    (len (optsPrefixOnly.filterTags specHelpers)
        + (if optsPrefixOnly.Prefix.isSome then 1 else 0)
        + (if optsPrefixOnly.ObjectSizeLessThan.isSome then 1 else 0)
        + (if optsPrefixOnly.ObjectSizeGreaterThan.isSome then 1 else 0) ≤ 1) ∧
    (optsPrefixOnly.Filter specHelpers).And = {} ∧
    populatedCount (optsPrefixOnly.Filter specHelpers) ≤ 1 ∧
    (optsPrefixOnly.Filter specHelpers).Prefix = "logs/" :=
  ⟨by decide,
   (Filter_simple specHelpers optsPrefixOnly (by decide)).1,
   (Filter_simple specHelpers optsPrefixOnly (by decide)).2.1,
   (Filter_simple specHelpers optsPrefixOnly (by decide)).2.2.1 "logs/" rfl⟩

/-- Counterexample to C6: with an explicitly empty prefix and an explicit zero
size bound the count of set predicates is 2, and the `And` part of the filter is
the zero-valued `And`. -/
theorem Filter_compound_iff_counterexample :
    ¬ ((optsEmptyPrefixZeroSize.Filter specHelpers).And ≠ {} ↔
        2 ≤ len (optsEmptyPrefixZeroSize.filterTags specHelpers)
          + (if optsEmptyPrefixZeroSize.Prefix.isSome then 1 else 0)
          + (if optsEmptyPrefixZeroSize.ObjectSizeLessThan.isSome then 1 else 0)
          + (if optsEmptyPrefixZeroSize.ObjectSizeGreaterThan.isSome then 1 else 0)) := by
  decide

/-- C6 (amended): the `And` part of the filter returned by `Filter` differs from
the zero-valued `And` if and only if the count of set predicates is at least 2
and one of the values put in it is not zero: a non-nil tag slice, a non-empty
prefix or a non-zero size bound. -/
theorem Filter_compound_iff (h : Helpers) (opts : LifecycleOptions) :
    (opts.Filter h).And ≠ {} ↔
      (2 ≤ len (opts.filterTags h) + (if opts.Prefix.isSome then 1 else 0)
          + (if opts.ObjectSizeLessThan.isSome then 1 else 0)
          + (if opts.ObjectSizeGreaterThan.isSome then 1 else 0) ∧
        (opts.filterTags h ≠ none ∨ opts.Prefix.getD "" ≠ "" ∨
          opts.ObjectSizeLessThan.getD 0 ≠ 0 ∨ opts.ObjectSizeGreaterThan.getD 0 ≠ 0)) := by
  rw [← predCount_eq]
  by_cases hn : 2 ≤ opts.predCount h
  · rw [Filter_of_two_le h opts hn]
    simp only [hn, true_and, ne_eq, lifecycle.And.mk.injEq, not_and]
    constructor
    · intro hne
      by_contra hcon
      simp only [not_or, not_not] at hcon
      exact hne hcon.2.1 hcon.1 hcon.2.2.1 hcon.2.2.2
    · intro hor hp ht hl hg
      rcases hor with h1 | h1 | h1 | h1
      · exact h1 ht
      · exact h1 hp
      · exact h1 hl
      · exact h1 hg
  · rw [Filter_of_lt_two h opts (by omega)]
    simp [hn]

/-- Counterexample to C7: the tag expression `a` has an entry without `=`, and
for every tag extractor the outcome of `Filter` on it is a filter, not an
error. -/
theorem Filter_malformed_tags_counterexample :
    tagExprMalformed "a" = true ∧ optsTagWithoutEq.Tags = some "a" ∧
    ∀ h : Helpers, ∃ f, optsTagWithoutEq.FilterOutcome h = Except.ok f :=
  ⟨by decide, rfl, fun h => ⟨optsTagWithoutEq.Filter h, rfl⟩⟩

/-- C7 (amended): filter composition cannot fail: for every option set, whatever
its tag expression, the outcome of `Filter` is never an error; it is the filter
carrying the tags the extractor returned for the expression, all of them in
`And.Tags` when at least two predicates are set and the first one as `Tag`
otherwise. -/
theorem Filter_never_fails (h : Helpers) (opts : LifecycleOptions) :
    (∀ err, opts.FilterOutcome h ≠ Except.error err) ∧
    ∃ f, opts.FilterOutcome h = Except.ok f ∧
      (2 ≤ opts.predCount h → f.And.Tags = opts.filterTags h ∧ f.Tag = {}) ∧
      (opts.predCount h < 2 → f.And.Tags = none ∧
        f.Tag = match opts.filterTags h with
          | some (t :: _) => t
          | _ => {}) := by
  refine ⟨fun err hc => by simp [LifecycleOptions.FilterOutcome] at hc,
    opts.Filter h, rfl, ?_, ?_⟩
  · intro hn
    rw [Filter_of_two_le h opts hn]
    exact ⟨rfl, rfl⟩
  · intro hn
    rw [Filter_of_lt_two h opts hn]
    exact ⟨rfl, rfl⟩

/-! ## Claims about `LifecycleOptions.ToILMRule` -/

/-- The rule returned by `ToILMRule` when it returns no error. -/
theorem ToILMRule_of_ok (h : Helpers) (opts : LifecycleOptions)
    (hok : (opts.ToILMRule h).2 = none) :
    (opts.ToILMRule h).1
      = { ID := opts.ID
          RuleFilter := opts.Filter h
          Status := match opts.Status with
            | some b => if !b then "Disabled" else "Enabled"
            | none => "Enabled"
          Expiration := (h.parseExpiry opts.ExpiryDate opts.ExpiryDays
            opts.ExpiredObjectDeleteMarker opts.ExpiredObjectAllversions).1
          Transition := (h.parseTransition opts.StorageClass opts.TransitionDate
            opts.TransitionDays).1
          NoncurrentVersionExpiration :=
            { NoncurrentDays := opts.NoncurrentVersionExpirationDays.getD 0
              NewerNoncurrentVersions := opts.NewerNoncurrentExpirationVersions.getD 0 }
          NoncurrentVersionTransition :=
            { NoncurrentDays := opts.NoncurrentVersionTransitionDays.getD 0
              NewerNoncurrentVersions := opts.NewerNoncurrentTransitionVersions.getD 0
              StorageClass := opts.NoncurrentVersionTransitionStorageClass.getD "" } } := by
  unfold LifecycleOptions.ToILMRule at hok ⊢
  rcases he : h.parseExpiry opts.ExpiryDate opts.ExpiryDays opts.ExpiredObjectDeleteMarker
      opts.ExpiredObjectAllversions with ⟨expiry, _ | e1⟩
  · rcases ht : h.parseTransition opts.StorageClass opts.TransitionDate
        opts.TransitionDays with ⟨transition, _ | e2⟩
    · simp only [he, ht] at hok ⊢
      split at hok
      · simp at hok
      · cases opts.NoncurrentVersionExpirationDays <;>
          cases opts.NewerNoncurrentExpirationVersions <;>
          cases opts.NoncurrentVersionTransitionDays <;>
          cases opts.NewerNoncurrentTransitionVersions <;>
          cases opts.NoncurrentVersionTransitionStorageClass <;> rfl
    · simp [he, ht] at hok
  · simp [he] at hok

/-- C8: when `ToILMRule` succeeds, the status of the rule is "Disabled" exactly
when the option `Status` is set and false, and "Enabled" in every other case. -/
theorem ToILMRule_status (h : Helpers) (opts : LifecycleOptions)
    (hok : (opts.ToILMRule h).2 = none) :
    ((opts.ToILMRule h).1.Status = "Disabled" ↔ opts.Status = some false) ∧
    (opts.Status ≠ some false → (opts.ToILMRule h).1.Status = "Enabled") := by
  rw [ToILMRule_of_ok h opts hok]
  rcases opts.Status with _ | _ | _ <;> simp

/-- Witness of C8: the disabled rule `r1` with prefix `logs/` expiring after 30
days. -/
theorem ToILMRule_status_witness :
    (optsDisabledExpiry.ToILMRule specHelpers).2 = none ∧
    (((optsDisabledExpiry.ToILMRule specHelpers).1.Status = "Disabled" ↔
        optsDisabledExpiry.Status = some false) ∧
      (optsDisabledExpiry.Status ≠ some false →
        (optsDisabledExpiry.ToILMRule specHelpers).1.Status = "Enabled")) :=
  ⟨by decide, ToILMRule_status specHelpers optsDisabledExpiry (by decide)⟩

/-- C9: whenever `ToILMRule` returns an error, the rule returned with it is the
zero-valued rule. -/
theorem ToILMRule_error_zero_rule (h : Helpers) (opts : LifecycleOptions)
    (herr : (opts.ToILMRule h).2 ≠ none) :
    (opts.ToILMRule h).1 = {} := by
  unfold LifecycleOptions.ToILMRule at herr ⊢
  rcases he : h.parseExpiry opts.ExpiryDate opts.ExpiryDays opts.ExpiredObjectDeleteMarker
      opts.ExpiredObjectAllversions with ⟨expiry, _ | e1⟩
  · rcases ht : h.parseTransition opts.StorageClass opts.TransitionDate
        opts.TransitionDays with ⟨transition, _ | e2⟩
    · simp only [he, ht] at herr ⊢
      split
      · rfl
      · rename_i hv
        rw [hv] at herr
        exact absurd rfl herr
    · simp [he, ht]
  · simp [he]

/-- Witness of C9: an expiry date together with an expiry day count. -/
theorem ToILMRule_error_zero_rule_witness :
    (optsDateAndDays.ToILMRule specHelpers).2 ≠ none ∧
    (optsDateAndDays.ToILMRule specHelpers).1 = {} :=
  ⟨by decide, ToILMRule_error_zero_rule specHelpers optsDateAndDays (by decide)⟩

/-- C10: when `ToILMRule` succeeds, the rule has the ID of the option set, the
filter `Filter()` of the option set, and each of the five noncurrent-version
fields equal to its option when set and zero-valued when unset. -/
theorem ToILMRule_fields (h : Helpers) (opts : LifecycleOptions)
    (hok : (opts.ToILMRule h).2 = none) :
    (opts.ToILMRule h).1.ID = opts.ID ∧
    (opts.ToILMRule h).1.RuleFilter = opts.Filter h ∧
    (opts.ToILMRule h).1.NoncurrentVersionExpiration.NoncurrentDays
      = opts.NoncurrentVersionExpirationDays.getD 0 ∧
    (opts.ToILMRule h).1.NoncurrentVersionExpiration.NewerNoncurrentVersions
      = opts.NewerNoncurrentExpirationVersions.getD 0 ∧
    (opts.ToILMRule h).1.NoncurrentVersionTransition.NoncurrentDays
      = opts.NoncurrentVersionTransitionDays.getD 0 ∧
    (opts.ToILMRule h).1.NoncurrentVersionTransition.NewerNoncurrentVersions
      = opts.NewerNoncurrentTransitionVersions.getD 0 ∧
    (opts.ToILMRule h).1.NoncurrentVersionTransition.StorageClass
      = opts.NoncurrentVersionTransitionStorageClass.getD "" := by
  rw [ToILMRule_of_ok h opts hok]
  exact ⟨rfl, rfl, rfl, rfl, rfl, rfl, rfl⟩

/-- Witness of C10: the rule `r2` with noncurrent-version expiry and
transition. -/
theorem ToILMRule_fields_witness :
    (optsNoncurrent.ToILMRule specHelpers).2 = none ∧
    ((optsNoncurrent.ToILMRule specHelpers).1.ID = "r2" ∧
      (optsNoncurrent.ToILMRule specHelpers).1.RuleFilter = { Prefix := "logs/" } ∧
      (optsNoncurrent.ToILMRule specHelpers).1.NoncurrentVersionExpiration.NoncurrentDays
        = 7 ∧
      (optsNoncurrent.ToILMRule specHelpers).1.NoncurrentVersionExpiration.NewerNoncurrentVersions
        = 2 ∧
      (optsNoncurrent.ToILMRule specHelpers).1.NoncurrentVersionTransition.NoncurrentDays
        = 30 ∧
      (optsNoncurrent.ToILMRule specHelpers).1.NoncurrentVersionTransition.NewerNoncurrentVersions
        = 0 ∧
      (optsNoncurrent.ToILMRule specHelpers).1.NoncurrentVersionTransition.StorageClass
        = "COLD") :=
  ⟨by decide, ToILMRule_fields specHelpers optsNoncurrent (by decide)⟩

/-- An error of the expiry parser is the error of `ToILMRule` (lines 153-156). -/
theorem ToILMRule_error_of_parseExpiry (h : Helpers) (opts : LifecycleOptions)
    (he : (h.parseExpiry opts.ExpiryDate opts.ExpiryDays opts.ExpiredObjectDeleteMarker
      opts.ExpiredObjectAllversions).2 ≠ none) :
    (opts.ToILMRule h).2 ≠ none := by
  unfold LifecycleOptions.ToILMRule
  rcases hq : h.parseExpiry opts.ExpiryDate opts.ExpiryDays opts.ExpiredObjectDeleteMarker
      opts.ExpiredObjectAllversions with ⟨expiry, _ | e1⟩
  · rw [hq] at he
    exact absurd rfl he
  · simp

/-- When the two parsers and the validator raise no error, `ToILMRule` returns
the rule it built and no error. -/
theorem ToILMRule_of_valid (h : Helpers) (opts : LifecycleOptions)
    (he : (h.parseExpiry opts.ExpiryDate opts.ExpiryDays opts.ExpiredObjectDeleteMarker
      opts.ExpiredObjectAllversions).2 = none)
    (ht : (h.parseTransition opts.StorageClass opts.TransitionDate
      opts.TransitionDays).2 = none)
    (hval : h.validateILMRule (opts.newRule h) = none) :
    opts.ToILMRule h = (opts.newRule h, none) := by
  unfold LifecycleOptions.newRule at hval
  unfold LifecycleOptions.ToILMRule LifecycleOptions.newRule
  rcases hq : h.parseExpiry opts.ExpiryDate opts.ExpiryDays opts.ExpiredObjectDeleteMarker
      opts.ExpiredObjectAllversions with ⟨expiry, _ | e1⟩
  · rcases hr : h.parseTransition opts.StorageClass opts.TransitionDate
        opts.TransitionDays with ⟨transition, _ | e2⟩
    · rw [hq, hr] at hval
      simp only
      revert hval
      cases opts.NoncurrentVersionExpirationDays <;>
        cases opts.NewerNoncurrentExpirationVersions <;>
        cases opts.NoncurrentVersionTransitionDays <;>
        cases opts.NewerNoncurrentTransitionVersions <;>
        cases opts.NoncurrentVersionTransitionStorageClass <;>
        (intro hval; simp only [Option.getD] at hval; rw [hval]; rfl)
    · rw [hr] at ht
      simp at ht
  · rw [hq] at he
    simp at he

/-- When `ToILMRule` returns no error, the transition parser raised none and
the validator accepted the rule that was built. -/
theorem ToILMRule_ok_parts (h : Helpers) (opts : LifecycleOptions)
    (hok : (opts.ToILMRule h).2 = none) :
    (h.parseTransition opts.StorageClass opts.TransitionDate opts.TransitionDays).2 = none ∧
    h.validateILMRule (opts.newRule h) = none := by
  have hrule := ToILMRule_of_ok h opts hok
  unfold LifecycleOptions.ToILMRule at hok
  unfold LifecycleOptions.newRule
  rcases hq : h.parseExpiry opts.ExpiryDate opts.ExpiryDays opts.ExpiredObjectDeleteMarker
      opts.ExpiredObjectAllversions with ⟨expiry, _ | e1⟩
  · rcases hr : h.parseTransition opts.StorageClass opts.TransitionDate
        opts.TransitionDays with ⟨transition, _ | e2⟩
    · refine ⟨rfl, ?_⟩
      simp only [hq, hr] at hok ⊢
      revert hok
      cases opts.NoncurrentVersionExpirationDays <;>
        cases opts.NewerNoncurrentExpirationVersions <;>
        cases opts.NoncurrentVersionTransitionDays <;>
        cases opts.NewerNoncurrentTransitionVersions <;>
        cases opts.NoncurrentVersionTransitionStorageClass <;>
        (intro hok; simp only [Option.getD]; split at hok
         · simp at hok
         · assumption)
    · simp [hq, hr] at hok
  · simp [hq] at hok

/-- The rules the validator modelled from the specification accepts: each of
its checks passes. -/
theorem validateILMRule_eq_none_iff (rule : Rule) :
    validateILMRule rule = none ↔
      (filterShapeOk rule.RuleFilter = true ∧
        (if rule.Expiration.Date ≠ {} then 1 else 0)
          + (if rule.Expiration.Days ≠ 0 then 1 else 0)
          + (if rule.Expiration.DeleteMarker then 1 else 0) ≤ 1 ∧
        ¬ (rule.Transition.Date ≠ {} ∧ rule.Transition.Days ≠ 0) ∧
        ¬ ((rule.Transition.Date ≠ {} ∨ rule.Transition.Days ≠ 0)
          ∧ rule.Transition.StorageClass = "") ∧
        ¬ (rule.NoncurrentVersionTransition.StorageClass ≠ ""
          ∧ rule.NoncurrentVersionTransition.NoncurrentDays = 0) ∧
        rule.ID ≠ "") := by
  unfold validateILMRule
  by_cases c1 : (!filterShapeOk rule.RuleFilter) = true
  · rw [if_pos c1]
    simp at c1
    simp [c1]
  · rw [if_neg c1]
    have c1b : filterShapeOk rule.RuleFilter = true := by simpa using c1
    by_cases c2 : 1 < (if rule.Expiration.Date ≠ {} then 1 else 0)
        + (if rule.Expiration.Days ≠ 0 then 1 else 0)
        + (if rule.Expiration.DeleteMarker then 1 else 0)
    · rw [if_pos c2]
      constructor
      · intro hc
        cases hc
      · intro hc
        omega
    · rw [if_neg c2]
      by_cases c3 : rule.Transition.Date ≠ {} ∧ rule.Transition.Days ≠ 0
      · rw [if_pos c3]
        constructor
        · intro hc
          cases hc
        · intro hc
          exact absurd c3 hc.2.2.1
      · rw [if_neg c3]
        by_cases c4 : (rule.Transition.Date ≠ {} ∨ rule.Transition.Days ≠ 0)
            ∧ rule.Transition.StorageClass = ""
        · rw [if_pos c4]
          constructor
          · intro hc
            cases hc
          · intro hc
            exact absurd c4 hc.2.2.2.1
        · rw [if_neg c4]
          by_cases c5 : rule.NoncurrentVersionTransition.StorageClass ≠ ""
              ∧ rule.NoncurrentVersionTransition.NoncurrentDays = 0
          · rw [if_pos c5]
            constructor
            · intro hc
              cases hc
            · intro hc
              exact absurd c5 hc.2.2.2.2.1
          · rw [if_neg c5]
            by_cases c6 : rule.ID = ""
            · rw [if_pos c6]
              constructor
              · intro hc
                cases hc
              · intro hc
                exact absurd c6 hc.2.2.2.2.2
            · rw [if_neg c6]
              exact ⟨fun _ => ⟨c1b, by omega, c3, c4, c5, c6⟩, fun _ => rfl⟩

/-- The validator modelled from the specification reads the expiration of a
rule only to count its active triggers: a rule it accepts is still accepted with
another expiration that has at most one active trigger. -/
theorem validateILMRule_expiration (rule : Rule) (e : Expiration)
    (hv : validateILMRule rule = none)
    (hcount : (if e.Date ≠ {} then 1 else 0) + (if e.Days ≠ 0 then 1 else 0)
      + (if e.DeleteMarker then 1 else 0) ≤ 1) :
    validateILMRule { rule with Expiration := e } = none := by
  obtain ⟨v1, _, v3, v4, v5, v6⟩ := (validateILMRule_eq_none_iff rule).mp hv
  exact (validateILMRule_eq_none_iff _).mpr ⟨v1, hcount, v3, v4, v5, v6⟩

/-- With the validator modelled from the specification: when the expiry parser
returns an expiration with at most one active trigger and `ToILMRule` accepts
the option set without its expiry trigger, `ToILMRule` accepts the option set
and returns `newRule`. -/
theorem ToILMRule_of_single_trigger (h : Helpers) (opts : LifecycleOptions)
    (hval : h.validateILMRule = validateILMRule) (e : Expiration)
    (he : h.parseExpiry opts.ExpiryDate opts.ExpiryDays opts.ExpiredObjectDeleteMarker
      opts.ExpiredObjectAllversions = (e, none))
    (hcount : (if e.Date ≠ {} then 1 else 0) + (if e.Days ≠ 0 then 1 else 0)
      + (if e.DeleteMarker then 1 else 0) ≤ 1)
    (hrest : (opts.withoutExpiryTrigger.ToILMRule h).2 = none) :
    opts.ToILMRule h = (opts.newRule h, none) := by
  obtain ⟨ht0, hv0⟩ := ToILMRule_ok_parts h opts.withoutExpiryTrigger hrest
  have ht : (h.parseTransition opts.StorageClass opts.TransitionDate
      opts.TransitionDays).2 = none := ht0
  have hnr : opts.newRule h
      = { opts.withoutExpiryTrigger.newRule h with Expiration := e } := by
    unfold LifecycleOptions.newRule
    rw [he]
    rfl
  refine ToILMRule_of_valid h opts (by rw [he]) ht ?_
  rw [hnr, hval]
  rw [hval] at hv0
  exact validateILMRule_expiration _ e hv0 hcount

/-- C11: with the expiry parser and the validator modelled from the
specification, `ToILMRule` returns an error when both the expiry date and the
expiry day count are set; and when exactly one of them is set, to a well-formed
value, on an option set that `ToILMRule` accepts without the expiry trigger and
whose delete-marker flag is not true, it succeeds and the expiration of the rule
holds that trigger, the other of date and days being zero-valued. -/
theorem ToILMRule_expiry_date_xor_days (h : Helpers) (opts : LifecycleOptions)
    (hpe : h.parseExpiry = parseExpiry) (hval : h.validateILMRule = validateILMRule) :
    (opts.ExpiryDate.isSome = true → opts.ExpiryDays.isSome = true →
      (opts.ToILMRule h).2 ≠ none) ∧
    (∀ s, opts.ExpiryDate = some s → opts.ExpiryDays = none →
      (parseExpiryDate s).2 = none →
      (opts.withoutExpiryTrigger.ToILMRule h).2 = none →
      opts.ExpiredObjectDeleteMarker ≠ some true →
      (opts.ToILMRule h).2 = none ∧
      (opts.ToILMRule h).1.Expiration.Date = (parseExpiryDate s).1 ∧
      (opts.ToILMRule h).1.Expiration.Days = 0) ∧
    (∀ s, opts.ExpiryDays = some s → opts.ExpiryDate = none →
      (parseExpiryDays s).2 = none →
      (opts.withoutExpiryTrigger.ToILMRule h).2 = none →
      opts.ExpiredObjectDeleteMarker ≠ some true →
      (opts.ToILMRule h).2 = none ∧
      (opts.ToILMRule h).1.Expiration.Days = (parseExpiryDays s).1 ∧
      (opts.ToILMRule h).1.Expiration.Date = {}) := by
  have hmarker : opts.ExpiredObjectDeleteMarker ≠ some true →
      opts.ExpiredObjectDeleteMarker.getD false = false := by
    intro hdm
    rcases hb : opts.ExpiredObjectDeleteMarker with _ | b
    · rfl
    · cases b
      · rfl
      · exact absurd hb hdm
  refine ⟨?_, ?_, ?_⟩
  · intro hd hn
    apply ToILMRule_error_of_parseExpiry
    rw [hpe]
    rcases hx : opts.ExpiryDate with _ | d
    · rw [hx] at hd; simp at hd
    · rcases hy : opts.ExpiryDays with _ | n
      · rw [hy] at hn; simp at hn
      · simp [parseExpiry]
  · intro s hd hn hwf hrest hdm
    rcases hq : parseExpiryDate s with ⟨date, _ | e⟩
    · have he : h.parseExpiry opts.ExpiryDate opts.ExpiryDays opts.ExpiredObjectDeleteMarker
          opts.ExpiredObjectAllversions
          = ({ Date := date, DeleteMarker := opts.ExpiredObjectDeleteMarker.getD false,
               DeleteAll := opts.ExpiredObjectAllversions.getD false }, none) := by
        rw [hpe, hd, hn]
        simp [parseExpiry, hq]
      rw [ToILMRule_of_single_trigger h opts hval _ he
        (by simp only [hmarker hdm]; split_ifs <;> simp_all) hrest]
      simp [LifecycleOptions.newRule, he]
    · rw [hq] at hwf
      simp at hwf
  · intro s hn hd hwf hrest hdm
    rcases hq : parseExpiryDays s with ⟨days, _ | e⟩
    · have he : h.parseExpiry opts.ExpiryDate opts.ExpiryDays opts.ExpiredObjectDeleteMarker
          opts.ExpiredObjectAllversions
          = ({ Days := days, DeleteMarker := opts.ExpiredObjectDeleteMarker.getD false,
               DeleteAll := opts.ExpiredObjectAllversions.getD false }, none) := by
        rw [hpe, hd, hn]
        simp [parseExpiry, hq]
      rw [ToILMRule_of_single_trigger h opts hval _ he
        (by simp only [hmarker hdm]; split_ifs <;> simp_all) hrest]
      simp [LifecycleOptions.newRule, he]
    · rw [hq] at hwf
      simp at hwf

/-- Witness of C11: date and days together fail; the date `2030-01-01` alone and
the day count `30` alone, each on an option set accepted without it, succeed. -/
theorem ToILMRule_expiry_date_xor_days_witness :
    (specHelpers.parseExpiry = parseExpiry ∧
      specHelpers.validateILMRule = validateILMRule) ∧
    (optsDateAndDays.ToILMRule specHelpers).2 ≠ none ∧
    (((parseExpiryDate "2030-01-01").2 = none ∧
        (optsExpiryDate2030.withoutExpiryTrigger.ToILMRule specHelpers).2 = none ∧
        optsExpiryDate2030.ExpiredObjectDeleteMarker ≠ some true) ∧
      (optsExpiryDate2030.ToILMRule specHelpers).2 = none ∧
      (optsExpiryDate2030.ToILMRule specHelpers).1.Expiration.Date
        = { year := 2030, month := 1, day := 1 } ∧
      (optsExpiryDate2030.ToILMRule specHelpers).1.Expiration.Days = 0) ∧
    (((parseExpiryDays "30").2 = none ∧
        (optsPrefixExpiryDays30.withoutExpiryTrigger.ToILMRule specHelpers).2 = none ∧
        optsPrefixExpiryDays30.ExpiredObjectDeleteMarker ≠ some true) ∧
      (optsPrefixExpiryDays30.ToILMRule specHelpers).2 = none ∧
      (optsPrefixExpiryDays30.ToILMRule specHelpers).1.Expiration.Days = 30 ∧
      (optsPrefixExpiryDays30.ToILMRule specHelpers).1.Expiration.Date = {}) :=
  ⟨⟨rfl, rfl⟩,
   (ToILMRule_expiry_date_xor_days specHelpers optsDateAndDays rfl rfl).1 rfl rfl,
   ⟨⟨by decide, by decide, by decide⟩,
    (ToILMRule_expiry_date_xor_days specHelpers optsExpiryDate2030 rfl rfl).2.1
      "2030-01-01" rfl rfl (by decide) (by decide) (by decide)⟩,
   ⟨⟨by decide, by decide, by decide⟩,
    (ToILMRule_expiry_date_xor_days specHelpers optsPrefixExpiryDays30 rfl rfl).2.2
      "30" rfl rfl (by decide) (by decide) (by decide)⟩⟩

/-! ## Claims about `GetLifecycleOptions` -/

/-- C12 (the code at the failing input): with `--expiry-date 2030-01-01` and
`--expired-object-delete-marker` both given, two of the three expiration options
are set, the tally `expiryRulesCount` is 1 and `GetLifecycleOptions` returns the
option set holding both, with no error. -/
theorem GetLifecycleOptions_date_and_delete_marker :
    ∀ env : Env, GetLifecycleOptions env cmdDateAndDeleteMarker
      = ({ ID := "r1", ExpiryDate := some "2030-01-01",
           ExpiredObjectDeleteMarker := some true }, none) :=
  fun _ => rfl

/-- The same tally on `--expiry-date 2030-01-01 --expire-days 5`: the flag
`expire-days` sets the day count without being counted, and the option set
returned holds both the date and the day count. -/
theorem GetLifecycleOptions_date_and_expire_days :
    ∀ env : Env, GetLifecycleOptions env cmdDateAndExpireDays
      = ({ ID := "r1", ExpiryDate := some "2030-01-01", ExpiryDays := some "5" }, none) :=
  fun _ => rfl

/-- C13: when a transition storage class is given by `storage-class`, `tier` or
`transition-tier` and neither `transition-days` nor `transition-date` is set,
`GetLifecycleOptions` returns an error and the zero-valued option set. -/
theorem GetLifecycleOptions_tier_without_trigger (env : Env) (cmd : Command)
    (htier : cmd.IsSet "storage-class" = true ∨ cmd.IsSet "tier" = true ∨
      cmd.IsSet "transition-tier" = true)
    (hdays : cmd.IsSet "transition-days" = false)
    (hdate : cmd.IsSet "transition-date" = false) :
    (GetLifecycleOptions env cmd).2 ≠ none ∧ (GetLifecycleOptions env cmd).1 = {} := by
  have hex : ∃ e, GetLifecycleOptions env cmd = ({}, some e) := by
    simp only [GetLifecycleOptions]
    rcases parseSizeFlag env cmd "size-lt" with ⟨sizeLt, _ | e1⟩
    · rcases parseSizeFlag env cmd "size-gt" with ⟨sizeGt, _ | e2⟩
      · simp only
        cases h3 : cmd.IsSet "transition-tier" <;> cases h2 : cmd.IsSet "tier" <;>
          cases h1 : cmd.IsSet "storage-class" <;> simp_all
      · exact ⟨_, rfl⟩
    · exact ⟨_, rfl⟩
  obtain ⟨e, he⟩ := hex
  rw [he]
  exact ⟨by simp, rfl⟩

/-- Witness of C13: `--tier cold` without a transition trigger. -/
theorem GetLifecycleOptions_tier_without_trigger_witness :
    (cmdTierOnly.IsSet "storage-class" = true ∨ cmdTierOnly.IsSet "tier" = true ∨
      cmdTierOnly.IsSet "transition-tier" = true) ∧
    cmdTierOnly.IsSet "transition-days" = false ∧
    cmdTierOnly.IsSet "transition-date" = false ∧
    (GetLifecycleOptions envExample cmdTierOnly).2 ≠ none ∧
    (GetLifecycleOptions envExample cmdTierOnly).1 = {} :=
  ⟨by decide, by decide, by decide,
   GetLifecycleOptions_tier_without_trigger envExample cmdTierOnly
     (by decide) (by decide) (by decide)⟩

/-- C14: when a noncurrent-version transition storage class is given by
`noncurrentversion-transition-storage-class`, `noncurrentversion-tier` or
`noncurrent-transition-tier` and no noncurrent-version transition day count flag
is set, `GetLifecycleOptions` returns an error and the zero-valued option set. -/
theorem GetLifecycleOptions_noncurrent_tier_without_days (env : Env) (cmd : Command)
    (htier : cmd.IsSet "noncurrentversion-transition-storage-class" = true ∨
      cmd.IsSet "noncurrentversion-tier" = true ∨
      cmd.IsSet "noncurrent-transition-tier" = true)
    (hdays : cmd.IsSet "noncurrentversion-transition-days" = false)
    (hdays2 : cmd.IsSet "noncurrent-transition-days" = false) :
    (GetLifecycleOptions env cmd).2 ≠ none ∧ (GetLifecycleOptions env cmd).1 = {} := by
  have hex : ∃ e, GetLifecycleOptions env cmd = ({}, some e) := by
    simp only [GetLifecycleOptions]
    rcases parseSizeFlag env cmd "size-lt" with ⟨sizeLt, _ | e1⟩
    · rcases parseSizeFlag env cmd "size-gt" with ⟨sizeGt, _ | e2⟩
      · simp only
        have hnc : (if cmd.IsSet "noncurrent-transition-tier" = true then
              some (env.ToUpper (cmd.GetString "noncurrent-transition-tier"))
            else if cmd.IsSet "noncurrentversion-tier" = true then
              some (env.ToUpper (cmd.GetString "noncurrentversion-tier"))
            else if cmd.IsSet "noncurrentversion-transition-storage-class" = true then
              some (env.ToUpper (cmd.GetString "noncurrentversion-transition-storage-class"))
            else none) ≠ none ∧ cmd.IsSet "noncurrentversion-transition-days" = false
              ∧ cmd.IsSet "noncurrent-transition-days" = false := by
          refine ⟨?_, hdays, hdays2⟩
          cases h3 : cmd.IsSet "noncurrent-transition-tier" <;>
            cases h2 : cmd.IsSet "noncurrentversion-tier" <;>
            cases h1 : cmd.IsSet "noncurrentversion-transition-storage-class" <;>
            simp_all
        rw [if_pos hnc]
        split_ifs <;> exact ⟨_, rfl⟩
      · exact ⟨_, rfl⟩
    · exact ⟨_, rfl⟩
  obtain ⟨e, he⟩ := hex
  rw [he]
  exact ⟨by simp, rfl⟩

/-- Witness of C14: `--noncurrentversion-tier cold` without a day count. -/
theorem GetLifecycleOptions_noncurrent_tier_without_days_witness :
    (cmdNoncurrentTierOnly.IsSet "noncurrentversion-transition-storage-class" = true ∨
      cmdNoncurrentTierOnly.IsSet "noncurrentversion-tier" = true ∨
      cmdNoncurrentTierOnly.IsSet "noncurrent-transition-tier" = true) ∧
    cmdNoncurrentTierOnly.IsSet "noncurrentversion-transition-days" = false ∧
    cmdNoncurrentTierOnly.IsSet "noncurrent-transition-days" = false ∧
    (GetLifecycleOptions envExample cmdNoncurrentTierOnly).2 ≠ none ∧
    (GetLifecycleOptions envExample cmdNoncurrentTierOnly).1 = {} :=
  ⟨by decide, by decide, by decide,
   GetLifecycleOptions_noncurrent_tier_without_days envExample cmdNoncurrentTierOnly
     (by decide) (by decide) (by decide)⟩

/-! ## The stages of `ApplyRuleFields` -/

/-- The tag and prefix block writes to the filter only. -/
theorem applyFilterFields_frame (h : Helpers) (d : Rule) (opts : LifecycleOptions) :
    (applyFilterFields h d opts).ID = d.ID ∧
    (applyFilterFields h d opts).Status = d.Status ∧
    (applyFilterFields h d opts).Expiration = d.Expiration ∧
    (applyFilterFields h d opts).Transition = d.Transition ∧
    (applyFilterFields h d opts).NoncurrentVersionExpiration = d.NoncurrentVersionExpiration ∧
    (applyFilterFields h d opts).NoncurrentVersionTransition
      = d.NoncurrentVersionTransition := by
  unfold applyFilterFields
  rcases opts.Tags with _ | t <;> rcases opts.Prefix with _ | p
  · exact ⟨rfl, rfl, rfl, rfl, rfl, rfl⟩
  · dsimp only
    split_ifs <;> exact ⟨rfl, rfl, rfl, rfl, rfl, rfl⟩
  · exact ⟨rfl, rfl, rfl, rfl, rfl, rfl⟩
  · dsimp only
    split_ifs <;> exact ⟨rfl, rfl, rfl, rfl, rfl, rfl⟩

/-- The expiry chain writes to `Expiration.Date`, `Days` and `DeleteMarker`
only. -/
theorem applyExpiryFields_frame (h : Helpers) (d : Rule) (opts : LifecycleOptions) :
    (applyExpiryFields h d opts).1.ID = d.ID ∧
    (applyExpiryFields h d opts).1.RuleFilter = d.RuleFilter ∧
    (applyExpiryFields h d opts).1.Status = d.Status ∧
    (applyExpiryFields h d opts).1.Expiration.DeleteAll = d.Expiration.DeleteAll ∧
    (applyExpiryFields h d opts).1.Transition = d.Transition ∧
    (applyExpiryFields h d opts).1.NoncurrentVersionExpiration
      = d.NoncurrentVersionExpiration ∧
    (applyExpiryFields h d opts).1.NoncurrentVersionTransition
      = d.NoncurrentVersionTransition := by
  unfold applyExpiryFields
  rcases opts.ExpiryDate with _ | s
  · rcases opts.ExpiryDays with _ | s
    · rcases opts.ExpiredObjectDeleteMarker with _ | b <;>
        exact ⟨rfl, rfl, rfl, rfl, rfl, rfl, rfl⟩
    · simp only
      rcases h.parseExpiryDays s with ⟨days, _ | e⟩ <;>
        exact ⟨rfl, rfl, rfl, rfl, rfl, rfl, rfl⟩
  · simp only
    rcases h.parseExpiryDate s with ⟨date, _ | e⟩ <;>
      exact ⟨rfl, rfl, rfl, rfl, rfl, rfl, rfl⟩

/-- The transition chain writes to `Transition.Date` and `Transition.Days`
only. -/
theorem applyTransitionFields_frame (h : Helpers) (d : Rule) (opts : LifecycleOptions) :
    (applyTransitionFields h d opts).1.ID = d.ID ∧
    (applyTransitionFields h d opts).1.RuleFilter = d.RuleFilter ∧
    (applyTransitionFields h d opts).1.Status = d.Status ∧
    (applyTransitionFields h d opts).1.Expiration = d.Expiration ∧
    (applyTransitionFields h d opts).1.Transition.StorageClass = d.Transition.StorageClass ∧
    (applyTransitionFields h d opts).1.NoncurrentVersionExpiration
      = d.NoncurrentVersionExpiration ∧
    (applyTransitionFields h d opts).1.NoncurrentVersionTransition
      = d.NoncurrentVersionTransition := by
  unfold applyTransitionFields
  rcases opts.TransitionDate with _ | s
  · rcases opts.TransitionDays with _ | s
    · exact ⟨rfl, rfl, rfl, rfl, rfl, rfl, rfl⟩
    · simp only
      rcases h.parseTransitionDays s with ⟨days, _ | e⟩ <;>
        exact ⟨rfl, rfl, rfl, rfl, rfl, rfl, rfl⟩
  · simp only
    rcases h.parseTransitionDate s with ⟨date, _ | e⟩ <;>
      exact ⟨rfl, rfl, rfl, rfl, rfl, rfl, rfl⟩

/-- The last block leaves the ID, the filter, the expiration and the transition
date and days as they are. -/
theorem applyTailFields_frame (d : Rule) (opts : LifecycleOptions) :
    (applyTailFields d opts).ID = d.ID ∧
    (applyTailFields d opts).RuleFilter = d.RuleFilter ∧
    (applyTailFields d opts).Expiration = d.Expiration ∧
    (applyTailFields d opts).Transition.Date = d.Transition.Date ∧
    (applyTailFields d opts).Transition.Days = d.Transition.Days := by
  unfold applyTailFields
  cases opts.NoncurrentVersionExpirationDays <;>
    cases opts.NewerNoncurrentExpirationVersions <;>
    cases opts.NoncurrentVersionTransitionDays <;>
    cases opts.NewerNoncurrentTransitionVersions <;>
    cases opts.NoncurrentVersionTransitionStorageClass <;>
    cases opts.StorageClass <;> cases opts.Status <;>
    exact ⟨rfl, rfl, rfl, rfl, rfl⟩

/-- When `ApplyRuleFields` returns no error, neither chain returned one, and
the rule is the one the stages built in turn. -/
theorem ApplyRuleFields_of_ok (h : Helpers) (r : Rule) (opts : LifecycleOptions)
    (hok : (ApplyRuleFields h r opts).2 = none) :
    ∃ d1 d2 : Rule,
      applyExpiryFields h (applyFilterFields h r opts) opts = (d1, none) ∧
      applyTransitionFields h
        (match opts.ExpiredObjectAllversions with
          | some b => { d1 with Expiration := { d1.Expiration with DeleteAll := b } }
          | none => d1) opts = (d2, none) ∧
      (ApplyRuleFields h r opts).1 = applyTailFields d2 opts := by
  unfold ApplyRuleFields at hok ⊢
  rcases h1 : applyExpiryFields h (applyFilterFields h r opts) opts with ⟨d1, _ | e1⟩
  · rw [h1] at hok
    simp only at hok ⊢
    rcases h2 : applyTransitionFields h
        (match opts.ExpiredObjectAllversions with
          | some b => { d1 with Expiration := { d1.Expiration with DeleteAll := b } }
          | none => d1) opts with ⟨d2, _ | e2⟩
    · exact ⟨d1, d2, rfl, h2, rfl⟩
    · rw [h2] at hok
      simp at hok
  · rw [h1] at hok
    simp at hok

/-- When `ApplyRuleFields` returns no error, the date, days and delete-marker
of the expiration are those the expiry chain left. -/
theorem ApplyRuleFields_expiration_of_ok (h : Helpers) (r : Rule) (opts : LifecycleOptions)
    (hok : (ApplyRuleFields h r opts).2 = none) :
    ∃ d1 : Rule, applyExpiryFields h (applyFilterFields h r opts) opts = (d1, none) ∧
      (ApplyRuleFields h r opts).1.Expiration.Date = d1.Expiration.Date ∧
      (ApplyRuleFields h r opts).1.Expiration.Days = d1.Expiration.Days ∧
      (ApplyRuleFields h r opts).1.Expiration.DeleteMarker = d1.Expiration.DeleteMarker := by
  obtain ⟨d1, d2, h1, h2, h3⟩ := ApplyRuleFields_of_ok h r opts hok
  refine ⟨d1, h1, ?_⟩
  have ht := (applyTransitionFields_frame h
    (match opts.ExpiredObjectAllversions with
      | some b => { d1 with Expiration := { d1.Expiration with DeleteAll := b } }
      | none => d1) opts).2.2.2.1
  rw [h2] at ht
  rw [h3, (applyTailFields_frame d2 opts).2.2.1, ht]
  cases opts.ExpiredObjectAllversions <;> exact ⟨rfl, rfl, rfl⟩

/-- When `ApplyRuleFields` returns no error, the date and days of the
transition are those the transition chain left, and the chain ran on a rule
whose transition is the stored one. -/
theorem ApplyRuleFields_transition_of_ok (h : Helpers) (r : Rule) (opts : LifecycleOptions)
    (hok : (ApplyRuleFields h r opts).2 = none) :
    ∃ d d2 : Rule, d.Transition = r.Transition ∧
      applyTransitionFields h d opts = (d2, none) ∧
      (ApplyRuleFields h r opts).1.Transition.Date = d2.Transition.Date ∧
      (ApplyRuleFields h r opts).1.Transition.Days = d2.Transition.Days := by
  obtain ⟨d1, d2, h1, h2, h3⟩ := ApplyRuleFields_of_ok h r opts hok
  refine ⟨_, d2, ?_, h2, ?_, ?_⟩
  · have he := (applyExpiryFields_frame h (applyFilterFields h r opts) opts).2.2.2.2.1
    rw [h1] at he
    have hf := (applyFilterFields_frame h r opts).2.2.2.1
    cases opts.ExpiredObjectAllversions
    · exact he.trans hf
    · exact he.trans hf
  · rw [h3, (applyTailFields_frame d2 opts).2.2.2.1]
  · rw [h3, (applyTailFields_frame d2 opts).2.2.2.2]

/-- When `ApplyRuleFields` returns no error, the filter of the rule is the one
the tag and prefix block left. -/
theorem ApplyRuleFields_filter_of_ok (h : Helpers) (r : Rule) (opts : LifecycleOptions)
    (hok : (ApplyRuleFields h r opts).2 = none) :
    (ApplyRuleFields h r opts).1.RuleFilter = (applyFilterFields h r opts).RuleFilter := by
  obtain ⟨d1, d2, h1, h2, h3⟩ := ApplyRuleFields_of_ok h r opts hok
  have he := (applyExpiryFields_frame h (applyFilterFields h r opts) opts).2.1
  rw [h1] at he
  have ht := (applyTransitionFields_frame h
    (match opts.ExpiredObjectAllversions with
      | some b => { d1 with Expiration := { d1.Expiration with DeleteAll := b } }
      | none => d1) opts).2.1
  rw [h2] at ht
  rw [h3, (applyTailFields_frame d2 opts).2.1, ht, ← he]
  cases opts.ExpiredObjectAllversions <;> rfl

/-- The all-versions block writes to `Expiration.DeleteAll` only. -/
theorem applyAllVersionsField_frame (d : Rule) (opts : LifecycleOptions) :
    (applyAllVersionsField d opts).ID = d.ID ∧
    (applyAllVersionsField d opts).RuleFilter = d.RuleFilter ∧
    (applyAllVersionsField d opts).Status = d.Status ∧
    (applyAllVersionsField d opts).Expiration.Date = d.Expiration.Date ∧
    (applyAllVersionsField d opts).Expiration.Days = d.Expiration.Days ∧
    (applyAllVersionsField d opts).Expiration.DeleteMarker = d.Expiration.DeleteMarker ∧
    (applyAllVersionsField d opts).Expiration.DeleteAll
      = opts.ExpiredObjectAllversions.getD d.Expiration.DeleteAll ∧
    (applyAllVersionsField d opts).Transition = d.Transition ∧
    (applyAllVersionsField d opts).NoncurrentVersionExpiration
      = d.NoncurrentVersionExpiration ∧
    (applyAllVersionsField d opts).NoncurrentVersionTransition
      = d.NoncurrentVersionTransition := by
  unfold applyAllVersionsField
  cases opts.ExpiredObjectAllversions <;> exact ⟨rfl, rfl, rfl, rfl, rfl, rfl, rfl, rfl, rfl, rfl⟩

/-- The three ways `ApplyRuleFields` returns: the error of the expiry chain with
the rule that chain left, the error of the transition chain with the rule that
chain left, or no error with the rule the last block left. -/
theorem ApplyRuleFields_cases (h : Helpers) (r : Rule) (opts : LifecycleOptions) :
    (∃ d1 e, applyExpiryFields h (applyFilterFields h r opts) opts = (d1, some e) ∧
      ApplyRuleFields h r opts = (d1, some e)) ∨
    (∃ d1 d2 e, applyExpiryFields h (applyFilterFields h r opts) opts = (d1, none) ∧
      applyTransitionFields h (applyAllVersionsField d1 opts) opts = (d2, some e) ∧
      ApplyRuleFields h r opts = (d2, some e)) ∨
    (∃ d1 d2, applyExpiryFields h (applyFilterFields h r opts) opts = (d1, none) ∧
      applyTransitionFields h (applyAllVersionsField d1 opts) opts = (d2, none) ∧
      ApplyRuleFields h r opts = (applyTailFields d2 opts, none)) := by
  unfold ApplyRuleFields
  rcases h1 : applyExpiryFields h (applyFilterFields h r opts) opts with ⟨d1, _ | e1⟩
  · rcases h2 : applyTransitionFields h (applyAllVersionsField d1 opts) opts with ⟨d2, _ | e2⟩
    · refine Or.inr (Or.inr ⟨d1, d2, rfl, h2, ?_⟩)
      unfold applyAllVersionsField at h2
      simp only [h2]
    · refine Or.inr (Or.inl ⟨d1, d2, e2, rfl, h2, ?_⟩)
      unfold applyAllVersionsField at h2
      simp only [h2]
  · exact Or.inl ⟨d1, e1, rfl, rfl⟩

/-- The last block leaves a field as it is when the option of that field is
unset. -/
theorem applyTailFields_unset (d : Rule) (opts : LifecycleOptions) :
    (opts.Status = none → (applyTailFields d opts).Status = d.Status) ∧
    (opts.StorageClass = none →
      (applyTailFields d opts).Transition.StorageClass = d.Transition.StorageClass) ∧
    (opts.NoncurrentVersionExpirationDays = none →
      (applyTailFields d opts).NoncurrentVersionExpiration.NoncurrentDays
        = d.NoncurrentVersionExpiration.NoncurrentDays) ∧
    (opts.NewerNoncurrentExpirationVersions = none →
      (applyTailFields d opts).NoncurrentVersionExpiration.NewerNoncurrentVersions
        = d.NoncurrentVersionExpiration.NewerNoncurrentVersions) ∧
    (opts.NoncurrentVersionTransitionDays = none →
      (applyTailFields d opts).NoncurrentVersionTransition.NoncurrentDays
        = d.NoncurrentVersionTransition.NoncurrentDays) ∧
    (opts.NewerNoncurrentTransitionVersions = none →
      (applyTailFields d opts).NoncurrentVersionTransition.NewerNoncurrentVersions
        = d.NoncurrentVersionTransition.NewerNoncurrentVersions) ∧
    (opts.NoncurrentVersionTransitionStorageClass = none →
      (applyTailFields d opts).NoncurrentVersionTransition.StorageClass
        = d.NoncurrentVersionTransition.StorageClass) := by
  unfold applyTailFields
  cases opts.NoncurrentVersionExpirationDays <;>
    cases opts.NewerNoncurrentExpirationVersions <;>
    cases opts.NoncurrentVersionTransitionDays <;>
    cases opts.NewerNoncurrentTransitionVersions <;>
    cases opts.NoncurrentVersionTransitionStorageClass <;>
    cases opts.StorageClass <;> cases opts.Status <;>
    refine ⟨?_, ?_, ?_, ?_, ?_, ?_, ?_⟩ <;>
    first
      | (intro _; rfl)
      | (intro hx; cases hx)

/-- The rule the expiry chain leaves, compared with the stored rule `r`. -/
theorem expiry_chain_frame (h : Helpers) (r d1 : Rule) (opts : LifecycleOptions)
    (x : Option probe.Error)
    (h1 : applyExpiryFields h (applyFilterFields h r opts) opts = (d1, x)) :
    d1.ID = r.ID ∧ d1.Status = r.Status ∧
    d1.RuleFilter = (applyFilterFields h r opts).RuleFilter ∧
    d1.Expiration.DeleteAll = r.Expiration.DeleteAll ∧
    d1.Transition = r.Transition ∧
    d1.NoncurrentVersionExpiration = r.NoncurrentVersionExpiration ∧
    d1.NoncurrentVersionTransition = r.NoncurrentVersionTransition := by
  have hf := applyFilterFields_frame h r opts
  have he := applyExpiryFields_frame h (applyFilterFields h r opts) opts
  rw [h1] at he
  obtain ⟨f1, f2, f3, f4, f5, f6⟩ := hf
  obtain ⟨e1, e2, e3, e4, e5, e6, e7⟩ := he
  refine ⟨e1.trans f1, e3.trans f2, e2, ?_, e5.trans f4, e6.trans f5, e7.trans f6⟩
  rw [← f3]
  exact e4

/-- The rule the transition chain leaves, compared with the stored rule `r` and
with the rule `d1` the expiry chain left. -/
theorem transition_chain_frame (h : Helpers) (r d1 d2 : Rule) (opts : LifecycleOptions)
    (x y : Option probe.Error)
    (h1 : applyExpiryFields h (applyFilterFields h r opts) opts = (d1, x))
    (h2 : applyTransitionFields h (applyAllVersionsField d1 opts) opts = (d2, y)) :
    d2.ID = r.ID ∧ d2.Status = r.Status ∧
    d2.RuleFilter = (applyFilterFields h r opts).RuleFilter ∧
    d2.Expiration.Date = d1.Expiration.Date ∧
    d2.Expiration.Days = d1.Expiration.Days ∧
    d2.Expiration.DeleteMarker = d1.Expiration.DeleteMarker ∧
    d2.Expiration.DeleteAll = opts.ExpiredObjectAllversions.getD r.Expiration.DeleteAll ∧
    d2.Transition.StorageClass = r.Transition.StorageClass ∧
    d2.NoncurrentVersionExpiration = r.NoncurrentVersionExpiration ∧
    d2.NoncurrentVersionTransition = r.NoncurrentVersionTransition := by
  obtain ⟨c1, c2, c3, c4, c5, c6, c7⟩ := expiry_chain_frame h r d1 opts x h1
  obtain ⟨a1, a2, a3, a4, a5, a6, a7, a8, a9, a10⟩ := applyAllVersionsField_frame d1 opts
  have ht := applyTransitionFields_frame h (applyAllVersionsField d1 opts) opts
  rw [h2] at ht
  obtain ⟨t1, t2, t3, t4, t5, t6, t7⟩ := ht
  simp only at t1 t2 t3 t4 t5 t6 t7
  refine ⟨t1.trans (a1.trans c1), t3.trans (a3.trans c2), t2.trans (a2.trans c3),
    ?_, ?_, ?_, ?_, ?_, t6.trans (a9.trans c6), t7.trans (a10.trans c7)⟩
  · rw [t4, a4]
  · rw [t4, a5]
  · rw [t4, a6]
  · rw [t4, a7, c4]
  · rw [t5, a8, c5]

/-- The expiry chain returns the rule it was given when it returns an error. -/
theorem applyExpiryFields_error (h : Helpers) (d : Rule) (opts : LifecycleOptions)
    (herr : (applyExpiryFields h d opts).2 ≠ none) :
    (applyExpiryFields h d opts).1 = d := by
  revert herr
  unfold applyExpiryFields
  rcases opts.ExpiryDate with _ | s
  · rcases opts.ExpiryDays with _ | s
    · rcases opts.ExpiredObjectDeleteMarker with _ | b <;> intro herr <;>
        exact absurd rfl herr
    · dsimp only
      rcases h.parseExpiryDays s with ⟨days, _ | e⟩ <;> intro herr <;>
        first
          | exact absurd rfl herr
          | rfl
  · dsimp only
    rcases h.parseExpiryDate s with ⟨date, _ | e⟩ <;> intro herr <;>
      first
        | exact absurd rfl herr
        | rfl

/-- The transition chain returns the rule it was given when it returns an
error. -/
theorem applyTransitionFields_error (h : Helpers) (d : Rule) (opts : LifecycleOptions)
    (herr : (applyTransitionFields h d opts).2 ≠ none) :
    (applyTransitionFields h d opts).1 = d := by
  revert herr
  unfold applyTransitionFields
  rcases opts.TransitionDate with _ | s
  · rcases opts.TransitionDays with _ | s
    · intro _
      rfl
    · dsimp only
      rcases h.parseTransitionDays s with ⟨days, _ | e⟩ <;> intro herr <;>
        first
          | exact absurd rfl herr
          | rfl
  · dsimp only
    rcases h.parseTransitionDate s with ⟨date, _ | e⟩ <;> intro herr <;>
      first
        | exact absurd rfl herr
        | rfl

/-- The values the last block leaves in the noncurrent-version transition: the
option where it is set, the previous value otherwise. -/
theorem applyTailFields_noncurrentTransition (d : Rule) (opts : LifecycleOptions) :
    (applyTailFields d opts).NoncurrentVersionTransition.StorageClass
      = opts.NoncurrentVersionTransitionStorageClass.getD
          d.NoncurrentVersionTransition.StorageClass ∧
    (applyTailFields d opts).NoncurrentVersionTransition.NoncurrentDays
      = opts.NoncurrentVersionTransitionDays.getD
          d.NoncurrentVersionTransition.NoncurrentDays := by
  unfold applyTailFields
  cases opts.NoncurrentVersionExpirationDays <;>
    cases opts.NewerNoncurrentExpirationVersions <;>
    cases opts.NoncurrentVersionTransitionDays <;>
    cases opts.NewerNoncurrentTransitionVersions <;>
    cases opts.NoncurrentVersionTransitionStorageClass <;>
    cases opts.StorageClass <;> cases opts.Status <;>
    exact ⟨rfl, rfl⟩

/-! ## Fixed points of the stages of `ApplyRuleFields` -/

/-- The tag and prefix block leaves a rule as it is when the filter of the rule
is one that this block produced for the same options. -/
theorem applyFilterFields_fix (h : Helpers) (r d : Rule) (opts : LifecycleOptions)
    (hf : d.RuleFilter = (applyFilterFields h r opts).RuleFilter) :
    applyFilterFields h d opts = d := by
  obtain ⟨id, f, st, e, t, nve, nvt⟩ := d
  simp only at hf
  subst hf
  unfold applyFilterFields
  rcases opts.Tags with _ | tg <;> rcases opts.Prefix with _ | p
  · rfl
  · dsimp only
    split_ifs <;> rfl
  · rfl
  · dsimp only
    split_ifs <;> rfl

/-- The expiry chain succeeds and leaves a rule as it is when the date, days and
delete-marker of the rule are those the chain produced for the same options. -/
theorem applyExpiryFields_fix (h : Helpers) (d d1 d2 : Rule) (opts : LifecycleOptions)
    (h1 : applyExpiryFields h d opts = (d1, none))
    (hDate : d2.Expiration.Date = d1.Expiration.Date)
    (hDays : d2.Expiration.Days = d1.Expiration.Days)
    (hMarker : d2.Expiration.DeleteMarker = d1.Expiration.DeleteMarker) :
    applyExpiryFields h d2 opts = (d2, none) := by
  obtain ⟨id, f, st, ⟨eDate, eDays, eMarker, eAll⟩, t, nve, nvt⟩ := d2
  simp only at hDate hDays hMarker
  subst hDate hDays hMarker
  revert h1
  unfold applyExpiryFields
  rcases opts.ExpiryDate with _ | s
  · rcases opts.ExpiryDays with _ | s
    · rcases opts.ExpiredObjectDeleteMarker with _ | b <;> intro h1 <;> cases h1 <;> rfl
    · dsimp only
      rcases h.parseExpiryDays s with ⟨days, _ | e⟩ <;> intro h1 <;> cases h1
      rfl
  · dsimp only
    rcases h.parseExpiryDate s with ⟨date, _ | e⟩ <;> intro h1 <;> cases h1
    rfl

/-- The all-versions block leaves a rule as it is when `DeleteAll` of the rule
is the value the block writes. -/
theorem applyAllVersionsField_fix (d : Rule) (opts : LifecycleOptions) (v : Bool)
    (hv : d.Expiration.DeleteAll = opts.ExpiredObjectAllversions.getD v) :
    applyAllVersionsField d opts = d := by
  obtain ⟨id, f, st, ⟨eDate, eDays, eMarker, eAll⟩, t, nve, nvt⟩ := d
  unfold applyAllVersionsField
  rcases hb : opts.ExpiredObjectAllversions with _ | b
  · rfl
  · rw [hb] at hv
    simp only [Option.getD] at hv
    subst hv
    rfl

/-- The transition chain succeeds and leaves a rule as it is when the date and
days of the transition of the rule are those the chain produced for the same
options. -/
theorem applyTransitionFields_fix (h : Helpers) (d d1 d2 : Rule) (opts : LifecycleOptions)
    (h1 : applyTransitionFields h d opts = (d1, none))
    (hDate : d2.Transition.Date = d1.Transition.Date)
    (hDays : d2.Transition.Days = d1.Transition.Days) :
    applyTransitionFields h d2 opts = (d2, none) := by
  obtain ⟨id, f, st, e, ⟨tDate, tClass, tDays⟩, nve, nvt⟩ := d2
  simp only at hDate hDays
  subst hDate hDays
  revert h1
  unfold applyTransitionFields
  rcases opts.TransitionDate with _ | s
  · rcases opts.TransitionDays with _ | s
    · intro h1
      cases h1
      rfl
    · dsimp only
      rcases h.parseTransitionDays s with ⟨days, _ | e⟩ <;> intro h1 <;> cases h1
      rfl
  · dsimp only
    rcases h.parseTransitionDate s with ⟨date, _ | e⟩ <;> intro h1 <;> cases h1
    rfl

/-- The last block applied twice gives what it gives applied once. -/
theorem applyTailFields_idem (d : Rule) (opts : LifecycleOptions) :
    applyTailFields (applyTailFields d opts) opts = applyTailFields d opts := by
  unfold applyTailFields
  cases opts.NoncurrentVersionExpirationDays <;>
    cases opts.NewerNoncurrentExpirationVersions <;>
    cases opts.NoncurrentVersionTransitionDays <;>
    cases opts.NewerNoncurrentTransitionVersions <;>
    cases opts.NoncurrentVersionTransitionStorageClass <;>
    cases opts.StorageClass <;> cases opts.Status <;> rfl

/-! ## Claims about `ApplyRuleFields` -/

/-- C1: `ApplyRuleFields` with an option set in which every pointer field is nil
returns no error and leaves the rule as it was. -/
theorem ApplyRuleFields_no_fields (h : Helpers) (r : Rule) (id : String) :
    ApplyRuleFields h r { ID := id } = (r, none) := by
  rfl

/-- C15: when `ExpiryDate` is set to a well-formed date `d` and `ApplyRuleFields`
succeeds, the expiration of the rule has `Date = d`, `Days = 0` and
`DeleteMarker = false`, whatever the three fields held before. -/
theorem ApplyRuleFields_expiry_date (h : Helpers) (r : Rule) (opts : LifecycleOptions)
    (s : String) (d : ExpirationDate)
    (hs : opts.ExpiryDate = some s) (hd : h.parseExpiryDate s = (d, none))
    (hok : (ApplyRuleFields h r opts).2 = none) :
    (ApplyRuleFields h r opts).1.Expiration.Date = d ∧
    (ApplyRuleFields h r opts).1.Expiration.Days = 0 ∧
    (ApplyRuleFields h r opts).1.Expiration.DeleteMarker = false := by
  obtain ⟨d1, h1, hDate, hDays, hMarker⟩ := ApplyRuleFields_expiration_of_ok h r opts hok
  rw [hDate, hDays, hMarker]
  unfold applyExpiryFields at h1
  rw [hs] at h1
  simp only [hd] at h1
  have h2 := (Prod.mk.injEq _ _ _ _ ▸ h1).1
  rw [← h2]
  exact ⟨rfl, rfl, rfl⟩

/-- Witness of C15: the rule expiring after 10 days, patched with the expiry
date `2030-01-01`. -/
theorem ApplyRuleFields_expiry_date_witness :
    (optsExpiryDate2030.ExpiryDate = some "2030-01-01" ∧
      specHelpers.parseExpiryDate "2030-01-01"
        = ({ year := 2030, month := 1, day := 1 }, none) ∧
      (ApplyRuleFields specHelpers ruleExpiryDays10 optsExpiryDate2030).2 = none) ∧
    ((ApplyRuleFields specHelpers ruleExpiryDays10 optsExpiryDate2030).1.Expiration.Date
        = { year := 2030, month := 1, day := 1 } ∧
      (ApplyRuleFields specHelpers ruleExpiryDays10 optsExpiryDate2030).1.Expiration.Days = 0 ∧
      (ApplyRuleFields specHelpers ruleExpiryDays10 optsExpiryDate2030).1.Expiration.DeleteMarker
        = false) :=
  ⟨⟨rfl, by decide, by decide⟩,
   ApplyRuleFields_expiry_date specHelpers ruleExpiryDays10 optsExpiryDate2030
     "2030-01-01" { year := 2030, month := 1, day := 1 } rfl (by decide) (by decide)⟩

/-- The expiry day-count branch of `ApplyRuleFields` (lines 435-442): on success
`Days` is the parsed count and `Date` is zero-valued, and `DeleteMarker` keeps
the value the stored rule had. -/
theorem ApplyRuleFields_expiry_days_branch (h : Helpers) (r : Rule) (opts : LifecycleOptions)
    (s : String) (n : ExpirationDays)
    (hdate : opts.ExpiryDate = none) (hs : opts.ExpiryDays = some s)
    (hn : h.parseExpiryDays s = (n, none))
    (hok : (ApplyRuleFields h r opts).2 = none) :
    (ApplyRuleFields h r opts).1.Expiration.Days = n ∧
    (ApplyRuleFields h r opts).1.Expiration.Date = {} ∧
    (ApplyRuleFields h r opts).1.Expiration.DeleteMarker = r.Expiration.DeleteMarker := by
  obtain ⟨d1, h1, hDate, hDays, hMarker⟩ := ApplyRuleFields_expiration_of_ok h r opts hok
  rw [hDate, hDays, hMarker]
  unfold applyExpiryFields at h1
  rw [hdate, hs] at h1
  simp only [hn] at h1
  have h2 := (Prod.mk.injEq _ _ _ _ ▸ h1).1
  rw [← h2]
  refine ⟨rfl, rfl, ?_⟩
  show (applyFilterFields h r opts).Expiration.DeleteMarker = r.Expiration.DeleteMarker
  rw [(applyFilterFields_frame h r opts).2.2.1]

/-- C16 (the code at the failing input): the stored rule has `DeleteMarker`
set; patched with the expiry day count `30`, `ApplyRuleFields` succeeds with
`Days = 30` and `Date` zero-valued, and `DeleteMarker` is still true. -/
theorem ApplyRuleFields_expiry_days_keeps_delete_marker :
    ApplyRuleFields specHelpers ruleDeleteMarker optsExpiryDays30
      = ({ ID := "r1", Status := "Enabled"
           Expiration := { Days := 30, DeleteMarker := true } }, none) := by
  decide

/-- C17: when `ExpiredObjectDeleteMarker` is set to `b`, `ExpiryDate` and
`ExpiryDays` are unset and `ApplyRuleFields` succeeds, the expiration of the
rule has `DeleteMarker = b` and `Days` and `Date` zero-valued. -/
theorem ApplyRuleFields_delete_marker (h : Helpers) (r : Rule) (opts : LifecycleOptions)
    (b : Bool)
    (hb : opts.ExpiredObjectDeleteMarker = some b)
    (hdate : opts.ExpiryDate = none) (hdays : opts.ExpiryDays = none)
    (hok : (ApplyRuleFields h r opts).2 = none) :
    (ApplyRuleFields h r opts).1.Expiration.DeleteMarker = b ∧
    (ApplyRuleFields h r opts).1.Expiration.Days = 0 ∧
    (ApplyRuleFields h r opts).1.Expiration.Date = {} := by
  obtain ⟨d1, h1, hDate, hDays, hMarker⟩ := ApplyRuleFields_expiration_of_ok h r opts hok
  rw [hDate, hDays, hMarker]
  unfold applyExpiryFields at h1
  rw [hdate, hdays, hb] at h1
  simp only at h1
  have h2 := (Prod.mk.injEq _ _ _ _ ▸ h1).1
  rw [← h2]
  exact ⟨rfl, rfl, rfl⟩

/-- Witness of C17: the rule expiring after 10 days, patched with the
delete-marker flag set to true. -/
theorem ApplyRuleFields_delete_marker_witness :
    (optsDeleteMarkerTrue.ExpiredObjectDeleteMarker = some true ∧
      optsDeleteMarkerTrue.ExpiryDate = none ∧ optsDeleteMarkerTrue.ExpiryDays = none ∧
      (ApplyRuleFields specHelpers ruleExpiryDays10 optsDeleteMarkerTrue).2 = none) ∧
    ((ApplyRuleFields specHelpers ruleExpiryDays10 optsDeleteMarkerTrue).1.Expiration.DeleteMarker
        = true ∧
      (ApplyRuleFields specHelpers ruleExpiryDays10 optsDeleteMarkerTrue).1.Expiration.Days = 0 ∧
      (ApplyRuleFields specHelpers ruleExpiryDays10 optsDeleteMarkerTrue).1.Expiration.Date
        = {}) :=
  ⟨⟨rfl, rfl, rfl, by decide⟩,
   ApplyRuleFields_delete_marker specHelpers ruleExpiryDays10 optsDeleteMarkerTrue true
     rfl rfl rfl (by decide)⟩

/-- C18: when exactly one of `TransitionDate` and `TransitionDays` is set, to a
well-formed value, and `ApplyRuleFields` succeeds, the transition of the rule
holds that value in its field and the other of `Date` and `Days` is zero-valued,
whatever the stored rule held. -/
theorem ApplyRuleFields_transition (h : Helpers) (r : Rule) (opts : LifecycleOptions)
    (hok : (ApplyRuleFields h r opts).2 = none) :
    (∀ s d, opts.TransitionDate = some s → opts.TransitionDays = none →
      h.parseTransitionDate s = (d, none) →
      (ApplyRuleFields h r opts).1.Transition.Date = d ∧
      (ApplyRuleFields h r opts).1.Transition.Days = 0) ∧
    (∀ s n, opts.TransitionDays = some s → opts.TransitionDate = none →
      h.parseTransitionDays s = (n, none) →
      (ApplyRuleFields h r opts).1.Transition.Days = n ∧
      (ApplyRuleFields h r opts).1.Transition.Date = {}) := by
  obtain ⟨d, d2, _, h2, hDate, hDays⟩ := ApplyRuleFields_transition_of_ok h r opts hok
  rw [hDate, hDays]
  unfold applyTransitionFields at h2
  constructor
  · intro s dt hs _ hp
    rw [hs] at h2
    simp only [hp] at h2
    have h3 := (Prod.mk.injEq _ _ _ _ ▸ h2).1
    rw [← h3]
    exact ⟨rfl, rfl⟩
  · intro s n hs hnone hp
    rw [hnone, hs] at h2
    simp only [hp] at h2
    have h3 := (Prod.mk.injEq _ _ _ _ ▸ h2).1
    rw [← h3]
    exact ⟨rfl, rfl⟩

/-- Witness of C18: a rule with transition days patched with a transition date,
and a rule with a transition date patched with transition days. -/
theorem ApplyRuleFields_transition_witness :
    ((ApplyRuleFields specHelpers ruleTransitionDays5 optsTransitionDate2031).2 = none ∧
      (ApplyRuleFields specHelpers ruleTransitionDays5 optsTransitionDate2031).1.Transition.Date
        = { year := 2031, month := 6, day := 15 } ∧
      (ApplyRuleFields specHelpers ruleTransitionDays5 optsTransitionDate2031).1.Transition.Days
        = 0) ∧
    ((ApplyRuleFields specHelpers ruleTransitionDate2029 optsTransitionDays45).2 = none ∧
      (ApplyRuleFields specHelpers ruleTransitionDate2029 optsTransitionDays45).1.Transition.Days
        = 45 ∧
      (ApplyRuleFields specHelpers ruleTransitionDate2029 optsTransitionDays45).1.Transition.Date
        = {}) :=
  ⟨⟨by decide,
    (ApplyRuleFields_transition specHelpers ruleTransitionDays5 optsTransitionDate2031
      (by decide)).1 "2031-06-15" { year := 2031, month := 6, day := 15 } rfl rfl (by decide)⟩,
   ⟨by decide,
    (ApplyRuleFields_transition specHelpers ruleTransitionDate2029 optsTransitionDays45
      (by decide)).2 "45" 45 rfl rfl (by decide)⟩⟩

/-- The tag block of `ApplyRuleFields` (lines 410-413): on success with `Tags`
set, `And.Tags` is the slice the extractor returned, and the top-level `Tag` of
the filter keeps the value the stored rule had. -/
theorem ApplyRuleFields_tags_branch (h : Helpers) (r : Rule) (opts : LifecycleOptions)
    (t : String) (ht : opts.Tags = some t)
    (hok : (ApplyRuleFields h r opts).2 = none) :
    (ApplyRuleFields h r opts).1.RuleFilter.And.Tags = h.extractILMTags t ∧
    (ApplyRuleFields h r opts).1.RuleFilter.Tag = r.RuleFilter.Tag := by
  rw [ApplyRuleFields_filter_of_ok h r opts hok]
  unfold applyFilterFields
  rw [ht]
  rcases opts.Prefix with _ | p
  · exact ⟨rfl, rfl⟩
  · dsimp only
    split_ifs <;> exact ⟨rfl, rfl⟩

/-- C19 (the code at the failing input): the filter of the stored rule is the
simple tag `old=1`; patched with the tag expression `a=1`, `ApplyRuleFields`
succeeds, `And.Tags` holds `a=1`, and the tag `old=1` is still the top-level
`Tag` of the filter. -/
theorem ApplyRuleFields_tags_keeps_simple_tag :
    ApplyRuleFields specHelpers ruleSimpleTag optsTagA1
      = ({ ID := "r1", Status := "Enabled"
           RuleFilter := { And := { Tags := some [{ Key := "a", Value := "1" }] }
                           Tag := { Key := "old", Value := "1" } } }, none) := by
  decide

/-- C20 (the code at the failing input): the filter of the stored rule is
zero-valued and has the Simple/Compound shape; patched with the tag expression
`a=1`, `ApplyRuleFields` succeeds and the `And` part of the filter holds the
single predicate `a=1`, so the shape invariant no longer holds. -/
theorem ApplyRuleFields_tags_breaks_shape :
    filterShapeInvariant ruleExpiryDays10.RuleFilter ∧
    (ApplyRuleFields specHelpers ruleExpiryDays10 optsTagA1).2 = none ∧
    (ApplyRuleFields specHelpers ruleExpiryDays10 optsTagA1).1.RuleFilter
      = { And := { Tags := some [{ Key := "a", Value := "1" }] } } ∧
    ¬ filterShapeInvariant (ApplyRuleFields specHelpers ruleExpiryDays10 optsTagA1).1.RuleFilter := by
  decide

/-- C21: with an option set in which only `Status` is set, `ApplyRuleFields`
succeeds, the status of the rule is "Enabled" for true and "Disabled" for
false, and every other field of the rule is unchanged. -/
theorem ApplyRuleFields_status_only (h : Helpers) (r : Rule) (id : String) (b : Bool) :
    ApplyRuleFields h r { ID := id, Status := some b }
      = ({ r with Status := if b then "Enabled" else "Disabled" }, none) := by
  rfl

/-- C23 (the code at the failing input): with the size bounds less-than 1024 and
greater-than 16 set, `ApplyRuleFields` succeeds and returns the rule as it was,
for every rule and every helper: neither bound reaches the filter. -/
theorem ApplyRuleFields_ignores_size_bounds :
    ∀ (h : Helpers) (r : Rule), ApplyRuleFields h r optsSizeBounds = (r, none) :=
  fun _ _ => rfl

/-- C28: on a nil configuration and on a configuration with an empty rule list,
`RemoveILMRule` returns the error "lifecycle configuration not set" and the
configuration it was given. -/
theorem RemoveILMRule_not_set (ilmID : String) (cfg : Configuration)
    (hempty : cfg.Rules.length = 0) :
    RemoveILMRule none ilmID = (none, some "lifecycle configuration not set") ∧
    RemoveILMRule (some cfg) ilmID = (some cfg, some "lifecycle configuration not set") := by
  refine ⟨rfl, ?_⟩
  unfold RemoveILMRule
  simp only
  rw [if_pos hempty]

/-- Witness of C28: removing "a" from the configuration without rules. -/
theorem RemoveILMRule_not_set_witness :
    ({ Rules := [] } : Configuration).Rules.length = 0 ∧
    RemoveILMRule none "a" = (none, some "lifecycle configuration not set") ∧
    RemoveILMRule (some { Rules := [] }) "a"
      = (some { Rules := [] }, some "lifecycle configuration not set") :=
  ⟨rfl, RemoveILMRule_not_set "a" { Rules := [] } rfl⟩

/-- C24: `ApplyRuleFields` never changes the ID of the rule, and each of
`Status`, `Transition.StorageClass`, `Expiration.DeleteAll` and the five
noncurrent-version fields keeps its value when its own option is unset,
whatever the other options are and whether or not an error is returned. -/
theorem ApplyRuleFields_keeps_unset (h : Helpers) (r : Rule) (opts : LifecycleOptions) :
    (ApplyRuleFields h r opts).1.ID = r.ID ∧
    (opts.Status = none → (ApplyRuleFields h r opts).1.Status = r.Status) ∧
    (opts.StorageClass = none →
      (ApplyRuleFields h r opts).1.Transition.StorageClass = r.Transition.StorageClass) ∧
    (opts.ExpiredObjectAllversions = none →
      (ApplyRuleFields h r opts).1.Expiration.DeleteAll = r.Expiration.DeleteAll) ∧
    (opts.NoncurrentVersionExpirationDays = none →
      (ApplyRuleFields h r opts).1.NoncurrentVersionExpiration.NoncurrentDays
        = r.NoncurrentVersionExpiration.NoncurrentDays) ∧
    (opts.NewerNoncurrentExpirationVersions = none →
      (ApplyRuleFields h r opts).1.NoncurrentVersionExpiration.NewerNoncurrentVersions
        = r.NoncurrentVersionExpiration.NewerNoncurrentVersions) ∧
    (opts.NoncurrentVersionTransitionDays = none →
      (ApplyRuleFields h r opts).1.NoncurrentVersionTransition.NoncurrentDays
        = r.NoncurrentVersionTransition.NoncurrentDays) ∧
    (opts.NewerNoncurrentTransitionVersions = none →
      (ApplyRuleFields h r opts).1.NoncurrentVersionTransition.NewerNoncurrentVersions
        = r.NoncurrentVersionTransition.NewerNoncurrentVersions) ∧
    (opts.NoncurrentVersionTransitionStorageClass = none →
      (ApplyRuleFields h r opts).1.NoncurrentVersionTransition.StorageClass
        = r.NoncurrentVersionTransition.StorageClass) := by
  rcases ApplyRuleFields_cases h r opts with
    ⟨d1, e, h1, hA⟩ | ⟨d1, d2, e, h1, h2, hA⟩ | ⟨d1, d2, h1, h2, hA⟩
  · obtain ⟨c1, c2, _, c4, c5, c6, c7⟩ := expiry_chain_frame h r d1 opts _ h1
    rw [hA]
    simp only
    exact ⟨c1, fun _ => c2, fun _ => by rw [c5], fun _ => c4, fun _ => by rw [c6],
      fun _ => by rw [c6], fun _ => by rw [c7], fun _ => by rw [c7], fun _ => by rw [c7]⟩
  · obtain ⟨t1, t2, _, _, _, _, t7, t8, t9, t10⟩ :=
      transition_chain_frame h r d1 d2 opts _ _ h1 h2
    rw [hA]
    simp only
    exact ⟨t1, fun _ => t2, fun _ => t8, fun hx => by rw [t7, hx]; rfl,
      fun _ => by rw [t9], fun _ => by rw [t9], fun _ => by rw [t10],
      fun _ => by rw [t10], fun _ => by rw [t10]⟩
  · obtain ⟨t1, t2, _, _, _, _, t7, t8, t9, t10⟩ :=
      transition_chain_frame h r d1 d2 opts _ _ h1 h2
    obtain ⟨u1, u2, u3, u4, u5, u6, u7⟩ := applyTailFields_unset d2 opts
    obtain ⟨v1, _, v3, _, _⟩ := applyTailFields_frame d2 opts
    rw [hA]
    simp only
    exact ⟨v1.trans t1, fun hx => (u1 hx).trans t2, fun hx => (u2 hx).trans t8,
      fun hx => by rw [v3, t7, hx]; rfl,
      fun hx => by rw [u3 hx, t9], fun hx => by rw [u4 hx, t9],
      fun hx => by rw [u5 hx, t10], fun hx => by rw [u6 hx, t10],
      fun hx => by rw [u7 hx, t10]⟩

/-- Witness of C24: the expiry date `2030-01-01` patched on the rule with a
noncurrent-version transition; status, storage classes, the all-versions flag
and the noncurrent-version fields have no option set. -/
theorem ApplyRuleFields_keeps_unset_witness :
    (optsExpiryDate2030.Status = none ∧ optsExpiryDate2030.StorageClass = none ∧
      optsExpiryDate2030.ExpiredObjectAllversions = none ∧
      optsExpiryDate2030.NoncurrentVersionTransitionDays = none ∧
      optsExpiryDate2030.NoncurrentVersionTransitionStorageClass = none) ∧
    (ApplyRuleFields specHelpers ruleNoncurrentTransition optsExpiryDate2030).1.ID = "r1" ∧
    (ApplyRuleFields specHelpers ruleNoncurrentTransition optsExpiryDate2030).1.Status
      = "Enabled" ∧
    (ApplyRuleFields specHelpers ruleNoncurrentTransition
      optsExpiryDate2030).1.NoncurrentVersionTransition.NoncurrentDays = 30 ∧
    (ApplyRuleFields specHelpers ruleNoncurrentTransition
      optsExpiryDate2030).1.NoncurrentVersionTransition.StorageClass = "COLD" :=
  ⟨⟨rfl, rfl, rfl, rfl, rfl⟩,
   (ApplyRuleFields_keeps_unset specHelpers ruleNoncurrentTransition optsExpiryDate2030).1,
   (ApplyRuleFields_keeps_unset specHelpers ruleNoncurrentTransition optsExpiryDate2030).2.1 rfl,
   (ApplyRuleFields_keeps_unset specHelpers ruleNoncurrentTransition
      optsExpiryDate2030).2.2.2.2.2.2.1 rfl,
   (ApplyRuleFields_keeps_unset specHelpers ruleNoncurrentTransition
      optsExpiryDate2030).2.2.2.2.2.2.2.2 rfl⟩

/-- C27: when `ExpiredObjectAllversions` is set to `b`, no member of the
expiration trigger group is set and `ApplyRuleFields` succeeds, `DeleteAll` is
`b` and `Date`, `Days` and `DeleteMarker` of the expiration are unchanged. -/
theorem ApplyRuleFields_all_versions (h : Helpers) (r : Rule) (opts : LifecycleOptions)
    (b : Bool)
    (hb : opts.ExpiredObjectAllversions = some b)
    (hdate : opts.ExpiryDate = none) (hdays : opts.ExpiryDays = none)
    (hmarker : opts.ExpiredObjectDeleteMarker = none)
    (hok : (ApplyRuleFields h r opts).2 = none) :
    (ApplyRuleFields h r opts).1.Expiration.DeleteAll = b ∧
    (ApplyRuleFields h r opts).1.Expiration.Date = r.Expiration.Date ∧
    (ApplyRuleFields h r opts).1.Expiration.Days = r.Expiration.Days ∧
    (ApplyRuleFields h r opts).1.Expiration.DeleteMarker = r.Expiration.DeleteMarker := by
  obtain ⟨d1, d2, h1, h2, h3⟩ := ApplyRuleFields_of_ok h r opts hok
  obtain ⟨_, _, _, t4, t5, t6, t7, _, _, _⟩ :=
    transition_chain_frame h r d1 d2 opts _ _ h1 h2
  have hd1 : d1 = applyFilterFields h r opts := by
    unfold applyExpiryFields at h1
    rw [hdate, hdays, hmarker] at h1
    exact ((Prod.mk.injEq _ _ _ _ ▸ h1).1).symm
  have hexp : d1.Expiration = r.Expiration := by
    rw [hd1]
    exact (applyFilterFields_frame h r opts).2.2.1
  rw [h3, (applyTailFields_frame d2 opts).2.2.1, t4, t5, t6, t7, hexp, hb]
  exact ⟨rfl, rfl, rfl, rfl⟩

/-- Witness of C27: the all-versions flag patched on the rule with the
delete-marker flag. -/
theorem ApplyRuleFields_all_versions_witness :
    (optsAllVersions.ExpiredObjectAllversions = some true ∧
      optsAllVersions.ExpiryDate = none ∧ optsAllVersions.ExpiryDays = none ∧
      optsAllVersions.ExpiredObjectDeleteMarker = none ∧
      (ApplyRuleFields specHelpers ruleDeleteMarker optsAllVersions).2 = none) ∧
    ((ApplyRuleFields specHelpers ruleDeleteMarker optsAllVersions).1.Expiration.DeleteAll
        = true ∧
      (ApplyRuleFields specHelpers ruleDeleteMarker optsAllVersions).1.Expiration.Date = {} ∧
      (ApplyRuleFields specHelpers ruleDeleteMarker optsAllVersions).1.Expiration.Days = 0 ∧
      (ApplyRuleFields specHelpers ruleDeleteMarker optsAllVersions).1.Expiration.DeleteMarker
        = true) :=
  ⟨⟨rfl, rfl, rfl, rfl, by decide⟩,
   ApplyRuleFields_all_versions specHelpers ruleDeleteMarker optsAllVersions true
     rfl rfl rfl rfl (by decide)⟩

/-- Counterexample to C22: patching the tags `a=1` and the malformed expiry date
`not-a-date`, `ApplyRuleFields` returns an error and the rule it leaves has the
new tag in its filter: it is not the stored rule. -/
theorem ApplyRuleFields_error_unchanged_counterexample :
    (ApplyRuleFields specHelpers ruleExpiryDays10 optsTagsBadDate).2 ≠ none ∧
    (ApplyRuleFields specHelpers ruleExpiryDays10 optsTagsBadDate).1.RuleFilter.And.Tags
      = some [{ Key := "a", Value := "1" }] ∧
    (ApplyRuleFields specHelpers ruleExpiryDays10 optsTagsBadDate).1 ≠ ruleExpiryDays10 := by
  decide

/-- C22 (amended): when `ApplyRuleFields` returns an error, the rule is the one
left by the blocks that ran before the failing parser: the tag and prefix block
when the expiry parser failed, and that block, the expiry chain and the
all-versions flag when the transition parser failed.  The ID, the status, the
transition and the two noncurrent-version parts are unchanged, and the rule is
wholly unchanged when none of the tags, the prefix and the expiration options is
set. -/
theorem ApplyRuleFields_error_keeps_writes (h : Helpers) (r : Rule) (opts : LifecycleOptions)
    (herr : (ApplyRuleFields h r opts).2 ≠ none) :
    (((applyExpiryFields h (applyFilterFields h r opts) opts).2 ≠ none ∧
        (ApplyRuleFields h r opts).1 = applyFilterFields h r opts) ∨
      ((applyExpiryFields h (applyFilterFields h r opts) opts).2 = none ∧
        (ApplyRuleFields h r opts).1
          = applyAllVersionsField
              (applyExpiryFields h (applyFilterFields h r opts) opts).1 opts)) ∧
    (ApplyRuleFields h r opts).1.ID = r.ID ∧
    (ApplyRuleFields h r opts).1.Status = r.Status ∧
    (ApplyRuleFields h r opts).1.Transition = r.Transition ∧
    (ApplyRuleFields h r opts).1.NoncurrentVersionExpiration
      = r.NoncurrentVersionExpiration ∧
    (ApplyRuleFields h r opts).1.NoncurrentVersionTransition
      = r.NoncurrentVersionTransition ∧
    (opts.Tags = none → opts.Prefix = none → opts.ExpiryDate = none →
      opts.ExpiryDays = none → opts.ExpiredObjectDeleteMarker = none →
      opts.ExpiredObjectAllversions = none → (ApplyRuleFields h r opts).1 = r) := by
  rcases ApplyRuleFields_cases h r opts with
    ⟨d1, e, h1, hA⟩ | ⟨d1, d2, e, h1, h2, hA⟩ | ⟨d1, d2, h1, h2, hA⟩
  · have hd1 : d1 = applyFilterFields h r opts := by
      have := applyExpiryFields_error h (applyFilterFields h r opts) opts (by rw [h1]; simp)
      rw [h1] at this
      exact this
    obtain ⟨c1, c2, _, _, c5, c6, c7⟩ := expiry_chain_frame h r d1 opts _ h1
    rw [hA, h1]
    refine ⟨Or.inl ⟨by simp, hd1⟩, c1, c2, c5, c6, c7, ?_⟩
    intro ht hp hdate hdays hmarker _
    exfalso
    unfold applyExpiryFields at h1
    rw [hdate, hdays, hmarker] at h1
    simp at h1
  · have hd2 : d2 = applyAllVersionsField d1 opts := by
      have := applyTransitionFields_error h (applyAllVersionsField d1 opts) opts
        (by rw [h2]; simp)
      rw [h2] at this
      exact this
    obtain ⟨c1, c2, _, _, c5, c6, c7⟩ := expiry_chain_frame h r d1 opts _ h1
    obtain ⟨a1, _, a3, _, _, _, _, a8, a9, a10⟩ := applyAllVersionsField_frame d1 opts
    rw [hA, h1]
    simp only
    rw [hd2]
    refine ⟨Or.inr ⟨trivial, rfl⟩, a1.trans c1, a3.trans c2, a8.trans c5, a9.trans c6,
      a10.trans c7, ?_⟩
    intro ht hp hdate hdays hmarker hall
    have hd1 : d1 = applyFilterFields h r opts := by
      unfold applyExpiryFields at h1
      rw [hdate, hdays, hmarker] at h1
      exact ((Prod.mk.injEq _ _ _ _ ▸ h1).1).symm
    rw [hd1]
    unfold applyAllVersionsField applyFilterFields
    rw [hall, ht, hp]
  · rw [hA] at herr
    exact absurd rfl herr

/-- Witness of C22 (amended): the tags `a=1` with the malformed expiry date
`not-a-date`. -/
theorem ApplyRuleFields_error_keeps_writes_witness :
    (ApplyRuleFields specHelpers ruleExpiryDays10 optsTagsBadDate).2 ≠ none ∧
    (ApplyRuleFields specHelpers ruleExpiryDays10 optsTagsBadDate).1.ID = "r1" ∧
    (ApplyRuleFields specHelpers ruleExpiryDays10 optsTagsBadDate).1.Status = "Enabled" :=
  ⟨by decide,
   (ApplyRuleFields_error_keeps_writes specHelpers ruleExpiryDays10 optsTagsBadDate
      (by decide)).2.1,
   (ApplyRuleFields_error_keeps_writes specHelpers ruleExpiryDays10 optsTagsBadDate
      (by decide)).2.2.1⟩

/-- Counterexample to C25: with the expiry date `2030-01-01` and the expiry day
count `3` both set, and with the transition date `2031-06-15` and the transition
day count `45` both set, `ApplyRuleFields` returns no error and applies the
date. -/
theorem ApplyRuleFields_conflict_counterexample :
    ApplyRuleFields specHelpers ruleExpiryDays10 optsDateAndDays
      = ({ ID := "r1", Status := "Enabled"
           Expiration := { Date := { year := 2030, month := 1, day := 1 } } }, none) ∧
    ApplyRuleFields specHelpers ruleTransitionDays5 optsTransitionDateAndDays
      = ({ ID := "r1", Status := "Enabled"
           Transition := { Date := { year := 2031, month := 6, day := 15 }
                           StorageClass := "COLD" } }, none) := by
  decide

/-- C25 (amended): when the date of a trigger category is set, `ApplyRuleFields`
does what it does with the day count of that category unset: a day count set
together with the date is ignored and raises no conflict error. -/
theorem ApplyRuleFields_date_wins (h : Helpers) (r : Rule) (opts : LifecycleOptions) :
    (opts.ExpiryDate ≠ none →
      ApplyRuleFields h r opts = ApplyRuleFields h r { opts with ExpiryDays := none }) ∧
    (opts.TransitionDate ≠ none →
      ApplyRuleFields h r opts
        = ApplyRuleFields h r { opts with TransitionDays := none }) := by
  constructor
  · intro hd
    obtain ⟨s, hs⟩ := Option.ne_none_iff_exists'.mp hd
    · have hflt : applyFilterFields h r { opts with ExpiryDays := none }
          = applyFilterFields h r opts := rfl
      have hexp : ∀ d, applyExpiryFields h d { opts with ExpiryDays := none }
          = applyExpiryFields h d opts := by
        intro d
        unfold applyExpiryFields
        simp only [hs]
      have htr : ∀ d, applyTransitionFields h d { opts with ExpiryDays := none }
          = applyTransitionFields h d opts := fun _ => rfl
      have htl : ∀ d, applyTailFields d { opts with ExpiryDays := none }
          = applyTailFields d opts := fun _ => rfl
      unfold ApplyRuleFields
      simp only [hflt, hexp, htr, htl]
  · intro hd
    obtain ⟨s, hs⟩ := Option.ne_none_iff_exists'.mp hd
    · have hflt : applyFilterFields h r { opts with TransitionDays := none }
          = applyFilterFields h r opts := rfl
      have hexp : ∀ d, applyExpiryFields h d { opts with TransitionDays := none }
          = applyExpiryFields h d opts := fun _ => rfl
      have htr : ∀ d, applyTransitionFields h d { opts with TransitionDays := none }
          = applyTransitionFields h d opts := by
        intro d
        unfold applyTransitionFields
        simp only [hs]
      have htl : ∀ d, applyTailFields d { opts with TransitionDays := none }
          = applyTailFields d opts := fun _ => rfl
      unfold ApplyRuleFields
      simp only [hflt, hexp, htr, htl]

/-- Witness of C25 (amended): the date `2030-01-01` with the day count `3`
gives what the date alone gives. -/
theorem ApplyRuleFields_date_wins_witness :
    optsDateAndDays.ExpiryDate ≠ none ∧
    optsTransitionDateAndDays.TransitionDate ≠ none ∧
    ApplyRuleFields specHelpers ruleExpiryDays10 optsDateAndDays
      = ApplyRuleFields specHelpers ruleExpiryDays10
          { optsDateAndDays with ExpiryDays := none } ∧
    ApplyRuleFields specHelpers ruleTransitionDays5 optsTransitionDateAndDays
      = ApplyRuleFields specHelpers ruleTransitionDays5
          { optsTransitionDateAndDays with TransitionDays := none } :=
  ⟨by decide, by decide,
   (ApplyRuleFields_date_wins specHelpers ruleExpiryDays10 optsDateAndDays).1 (by decide),
   (ApplyRuleFields_date_wins specHelpers ruleTransitionDays5
      optsTransitionDateAndDays).2 (by decide)⟩

/-- Counterexample to C26: the stored rules satisfy the noncurrent-transition
invariant; patching the storage class `COLD` alone on a rule without a day
count, or the day count 0 alone on a rule with the storage class `COLD`,
succeeds and leaves a storage class with a zero day count. -/
theorem ApplyRuleFields_noncurrent_invariant_counterexample :
    (noncurrentTransitionInvariant ruleExpiryDays10 ∧
      (ApplyRuleFields specHelpers ruleExpiryDays10 optsNoncurrentTierAlone).2 = none ∧
      ¬ noncurrentTransitionInvariant
        (ApplyRuleFields specHelpers ruleExpiryDays10 optsNoncurrentTierAlone).1) ∧
    (noncurrentTransitionInvariant ruleNoncurrentTransition ∧
      (ApplyRuleFields specHelpers ruleNoncurrentTransition optsNoncurrentDaysZero).2 = none ∧
      ¬ noncurrentTransitionInvariant
        (ApplyRuleFields specHelpers ruleNoncurrentTransition optsNoncurrentDaysZero).1) := by
  decide

/-- C29: when `RemoveILMRule` succeeds, no rule with ID `ilmID` is left in the
result, the rule count has dropped by the number of rules with that ID, and a
second `RemoveILMRule` with the same ID on the result returns an error and the
result as it was. -/
theorem RemoveILMRule_twice (lfcCfg : Option Configuration) (ilmID : String)
    (hok : (RemoveILMRule lfcCfg ilmID).2 = none) :
    ∃ cfg cfg2 : Configuration, lfcCfg = some cfg ∧
      (RemoveILMRule lfcCfg ilmID).1 = some cfg2 ∧
      (∀ r ∈ cfg2.Rules, r.ID ≠ ilmID) ∧
      cfg2.Rules.length + cfg.Rules.countP (fun r => decide (r.ID = ilmID))
        = cfg.Rules.length ∧
      (RemoveILMRule (some cfg2) ilmID).2 ≠ none ∧
      (RemoveILMRule (some cfg2) ilmID).1 = some cfg2 := by
  rcases lfcCfg with _ | cfg
  · simp [RemoveILMRule] at hok
  · by_cases hne : cfg.Rules = []
    · simp [RemoveILMRule, hne] at hok
    · rw [RemoveILMRule_of_nonempty cfg ilmID hne] at hok ⊢
      by_cases hfl : (cfg.Rules.filter (fun r => decide (r.ID ≠ ilmID))).length
          = cfg.Rules.length
      · rw [if_pos hfl] at hok
        simp at hok
      · rw [if_neg hfl]
        have hnone : ∀ r ∈ cfg.Rules.filter (fun r => decide (r.ID ≠ ilmID)), r.ID ≠ ilmID := by
          intro r hr
          have := (List.mem_filter.mp hr).2
          simpa using this
        refine ⟨cfg, { cfg with Rules := cfg.Rules.filter (fun r => decide (r.ID ≠ ilmID)) },
          rfl, rfl, hnone, ?_, RemoveILMRule_of_absent _ ilmID hnone⟩
        · have hsum := List.length_eq_countP_add_countP
            (fun r : Rule => decide (r.ID ≠ ilmID)) cfg.Rules
          rw [List.countP_eq_length_filter] at hsum
          have hcongr : (fun a : Rule => decide ¬(decide (a.ID ≠ ilmID)) = true)
              = (fun r : Rule => decide (r.ID = ilmID)) := by
            funext a
            simp
          rw [hcongr] at hsum
          simp only
          omega

/-- Witness of C29: removing "b" from the rules "a", "b", "c", "b" leaves "a",
"c"; removing "b" again is an error. -/
theorem RemoveILMRule_twice_witness :
    (RemoveILMRule (some cfgFourRules) "b").2 = none ∧
    ∃ cfg cfg2 : Configuration, some cfgFourRules = some cfg ∧
      (RemoveILMRule (some cfgFourRules) "b").1 = some cfg2 ∧
      (∀ r ∈ cfg2.Rules, r.ID ≠ "b") ∧
      cfg2.Rules.length + cfg.Rules.countP (fun r => decide (r.ID = "b"))
        = cfg.Rules.length ∧
      (RemoveILMRule (some cfg2) "b").2 ≠ none ∧
      (RemoveILMRule (some cfg2) "b").1 = some cfg2 :=
  ⟨by decide, RemoveILMRule_twice (some cfgFourRules) "b" (by decide)⟩

/-- C26 (amended): when `ApplyRuleFields` succeeds, the storage class and the
day count of the noncurrent-version transition are the options where set and the
stored values otherwise, and the same patch succeeds whatever these two options
are: nothing is validated.  The invariant holds after the patch exactly when
those values satisfy it, in particular when neither option is set. -/
theorem ApplyRuleFields_noncurrent_transition (h : Helpers) (r : Rule)
    (opts : LifecycleOptions) (hok : (ApplyRuleFields h r opts).2 = none) :
    (ApplyRuleFields h r opts).1.NoncurrentVersionTransition.StorageClass
      = opts.NoncurrentVersionTransitionStorageClass.getD
          r.NoncurrentVersionTransition.StorageClass ∧
    (ApplyRuleFields h r opts).1.NoncurrentVersionTransition.NoncurrentDays
      = opts.NoncurrentVersionTransitionDays.getD
          r.NoncurrentVersionTransition.NoncurrentDays ∧
    (∀ sc days, (ApplyRuleFields h r
      { opts with NoncurrentVersionTransitionStorageClass := sc
                  NoncurrentVersionTransitionDays := days }).2 = none) ∧
    (noncurrentTransitionInvariant (ApplyRuleFields h r opts).1 ↔
      (opts.NoncurrentVersionTransitionStorageClass.getD
          r.NoncurrentVersionTransition.StorageClass ≠ "" →
        opts.NoncurrentVersionTransitionDays.getD
          r.NoncurrentVersionTransition.NoncurrentDays ≠ 0)) ∧
    (opts.NoncurrentVersionTransitionStorageClass = none →
      opts.NoncurrentVersionTransitionDays = none →
      noncurrentTransitionInvariant r →
      noncurrentTransitionInvariant (ApplyRuleFields h r opts).1) := by
  obtain ⟨d1, d2, h1, h2, h3⟩ := ApplyRuleFields_of_ok h r opts hok
  have h2a : applyTransitionFields h (applyAllVersionsField d1 opts) opts = (d2, none) := h2
  obtain ⟨_, _, _, _, _, _, _, _, _, t10⟩ :=
    transition_chain_frame h r d1 d2 opts _ _ h1 h2a
  obtain ⟨n1, n2⟩ := applyTailFields_noncurrentTransition d2 opts
  rw [t10] at n1 n2
  have hsc : (ApplyRuleFields h r opts).1.NoncurrentVersionTransition.StorageClass
      = opts.NoncurrentVersionTransitionStorageClass.getD
          r.NoncurrentVersionTransition.StorageClass := by rw [h3, n1]
  have hdays : (ApplyRuleFields h r opts).1.NoncurrentVersionTransition.NoncurrentDays
      = opts.NoncurrentVersionTransitionDays.getD
          r.NoncurrentVersionTransition.NoncurrentDays := by rw [h3, n2]
  refine ⟨hsc, hdays, ?_, ?_, ?_⟩
  · intro sc days
    have hflt : applyFilterFields h r
        { opts with NoncurrentVersionTransitionStorageClass := sc
                    NoncurrentVersionTransitionDays := days }
        = applyFilterFields h r opts := rfl
    have hexp : ∀ d, applyExpiryFields h d
        { opts with NoncurrentVersionTransitionStorageClass := sc
                    NoncurrentVersionTransitionDays := days }
        = applyExpiryFields h d opts := fun _ => rfl
    have htr : ∀ d, applyTransitionFields h d
        { opts with NoncurrentVersionTransitionStorageClass := sc
                    NoncurrentVersionTransitionDays := days }
        = applyTransitionFields h d opts := fun _ => rfl
    unfold ApplyRuleFields
    simp only [hflt, hexp, htr, h1, h2]
  · unfold noncurrentTransitionInvariant
    rw [hsc, hdays]
  · intro hs hd hinv
    unfold noncurrentTransitionInvariant at hinv ⊢
    rw [hsc, hdays, hs, hd]
    exact hinv

/-- Witness of C26 (amended): the storage class `COLD` patched alone on a rule
without a noncurrent-version transition day count. -/
theorem ApplyRuleFields_noncurrent_transition_witness :
    (ApplyRuleFields specHelpers ruleExpiryDays10 optsNoncurrentTierAlone).2 = none ∧
    (ApplyRuleFields specHelpers ruleExpiryDays10
      optsNoncurrentTierAlone).1.NoncurrentVersionTransition.StorageClass = "COLD" ∧
    (ApplyRuleFields specHelpers ruleExpiryDays10
      optsNoncurrentTierAlone).1.NoncurrentVersionTransition.NoncurrentDays = 0 :=
  ⟨by decide,
   (ApplyRuleFields_noncurrent_transition specHelpers ruleExpiryDays10
      optsNoncurrentTierAlone (by decide)).1,
   (ApplyRuleFields_noncurrent_transition specHelpers ruleExpiryDays10
      optsNoncurrentTierAlone (by decide)).2.1⟩

/-- C30: when `ApplyRuleFields` succeeds, applying the same option set to the
patched rule succeeds too and leaves the patched rule as it is. -/
theorem ApplyRuleFields_idempotent (h : Helpers) (r : Rule) (opts : LifecycleOptions)
    (hok : (ApplyRuleFields h r opts).2 = none) :
    ApplyRuleFields h (ApplyRuleFields h r opts).1 opts
      = ((ApplyRuleFields h r opts).1, none) := by
  obtain ⟨d1, d2, h1, h2, h3⟩ := ApplyRuleFields_of_ok h r opts hok
  have h2a : applyTransitionFields h (applyAllVersionsField d1 opts) opts = (d2, none) := h2
  obtain ⟨_, _, t3, t4, t5, t6, t7, _, _, _⟩ :=
    transition_chain_frame h r d1 d2 opts _ _ h1 h2a
  obtain ⟨_, v2, v3, v4, v5⟩ := applyTailFields_frame d2 opts
  rw [h3]
  have hfix1 : applyFilterFields h (applyTailFields d2 opts) opts = applyTailFields d2 opts :=
    applyFilterFields_fix h r _ opts (v2.trans t3)
  have hfix2 : applyExpiryFields h (applyTailFields d2 opts) opts
      = (applyTailFields d2 opts, none) :=
    applyExpiryFields_fix h _ d1 _ opts h1 (by rw [v3, t4]) (by rw [v3, t5]) (by rw [v3, t6])
  have hfix3 : applyAllVersionsField (applyTailFields d2 opts) opts = applyTailFields d2 opts :=
    applyAllVersionsField_fix _ opts r.Expiration.DeleteAll (by rw [v3, t7])
  have hfix4 : applyTransitionFields h (applyTailFields d2 opts) opts
      = (applyTailFields d2 opts, none) :=
    applyTransitionFields_fix h _ d2 _ opts h2a v4 v5
  rcases ApplyRuleFields_cases h (applyTailFields d2 opts) opts with
    ⟨x1, e, g1, _⟩ | ⟨x1, x2, e, g1, g2, _⟩ | ⟨x1, x2, g1, g2, gA⟩
  · rw [hfix1, hfix2] at g1
    cases g1
  · rw [hfix1, hfix2] at g1
    cases g1
    rw [hfix3, hfix4] at g2
    cases g2
  · rw [hfix1, hfix2] at g1
    cases g1
    rw [hfix3, hfix4] at g2
    cases g2
    rw [gA, applyTailFields_idem]

/-- Witness of C30: an option set touching every block, patched twice on the
rule whose filter is a simple tag. -/
theorem ApplyRuleFields_idempotent_witness :
    (ApplyRuleFields specHelpers ruleSimpleTag optsManyFields).2 = none ∧
    ApplyRuleFields specHelpers
        (ApplyRuleFields specHelpers ruleSimpleTag optsManyFields).1 optsManyFields
      = ((ApplyRuleFields specHelpers ruleSimpleTag optsManyFields).1, none) :=
  ⟨by decide, ApplyRuleFields_idempotent specHelpers ruleSimpleTag optsManyFields (by decide)⟩

end ilm
